import Mathlib

/-!
Verification of the result-normalization and error-taxonomy layer of
`skypilot-mcp` (`src/skypilot_mcp/helpers.py` and `src/skypilot_mcp/tools/logs.py`)
against its natural-language specification.

The development shallowly embeds the Python code:

* Python runtime values that can reach `_make_serializable` are modelled by the
  mutually inductive type `PyVal` (with spine types `PyValList`, `PyPairList`,
  `PyFieldList` so that all recursion stays structural and all definitions
  evaluate by `rfl`/`decide`).
* Machine text is Lean `String`; byte strings are `List Nat` with an explicit
  `< 256` side condition where it matters; Python numbers are `Int`/`Rat`
  (the serializer only moves numbers around, it never computes with them).
* Exceptions are values of `PyException`; a fallible Python call is a Lean
  function returning `Except PyException α`.
* External collaborator calls (the SkyPilot SDK) are modelled by their
  observable interface: the argument record the wrapper passes to them and an
  oracle describing the collaborator's behaviour (exit code, written output,
  completion time), both taken as inputs of the embedded function.
-/

/-! ## Python value model

Constructors mirror the cases `_make_serializable` can distinguish, in the
order the source checks them: primitives, pydantic v2 (`model_dump`),
pydantic v1 (`dict` + `__fields__`), dataclasses, enums, sets/frozensets,
dicts, lists/tuples, bytes, `pathlib` paths, and a final constructor for any
other object, carrying its `str()` rendering (at the fallback the source first
tries `json.dumps(obj)`, but every natively JSON-encodable value is an
instance of a type already matched by an earlier `isinstance` branch, so the
fallback always lands on `str(obj)` for the values modelled here). -/

mutual

inductive PyVal where
  | pnone
  | pbool (b : Bool)
  | pint (n : Int)
  | pfloat (q : Rat)
  | pstr (s : String)
  | pmodelV2 (dump : PyVal)
  | pmodelV1 (d : PyVal)
  | pdataclass (fields : PyFieldList)
  | penum (label : String) (value : PyVal)
  | pset (elems : PyValList)
  | pfrozenset (elems : PyValList)
  | pdict (entries : PyPairList)
  | plist (elems : PyValList)
  | ptuple (elems : PyValList)
  | pbytes (bs : List Nat)
  | ppath (s : String)
  | pother (reprStr : String)
  deriving DecidableEq

inductive PyValList where
  | nil
  | cons (v : PyVal) (tl : PyValList)
  deriving DecidableEq

inductive PyPairList where
  | nil
  | cons (k : PyVal) (v : PyVal) (tl : PyPairList)
  deriving DecidableEq

inductive PyFieldList where
  | nil
  | cons (name : String) (v : PyVal) (tl : PyFieldList)
  deriving DecidableEq

end

/-- Conversion of the spine type to an ordinary list. -/
def PyValList.toList : PyValList → List PyVal
  | .nil => []
  | .cons v tl => v :: tl.toList

/-- Conversion of an ordinary list to the spine type. -/
def pyListOf : List PyVal → PyValList
  | [] => .nil
  | v :: tl => .cons v (pyListOf tl)

/-! ## Python comparison model

`sorted(obj)` in `_make_serializable` compares the set elements with Python
`<`.  The model covers the kinds on which comparison is a (partial) linear
order, exactly as Python compares them: numbers (`bool`/`int`/`float` are
cross-comparable by numeric value), strings (by code point), byte strings
(lexicographic), and tuples/lists (elementwise: the first position whose
elements are not equal decides; comparing the elements there may itself
raise).  Any cross-kind comparison among these raises `TypeError`, as do
comparisons of `None`, dicts, plain (non-`Int`) enum members, pydantic
models and ordinary (`order=False`) dataclasses — `pyCmp` returns `none` for
all of those.

Two kinds of values in the universe have Python comparisons that are defined
but are not a linear order: sets/frozensets (`<` is proper inclusion; it
never raises but leaves distinct incomparable elements "tied") and `pathlib`
paths (ordered by normalized parts).  `pyCmp` also returns `none` for these,
so the embedded serializer's branch condition is exact only away from them;
the C7 theorems therefore take their hypotheses from two predicates that are
exact on the whole universe in the direction used: `mutuallyComparable`
(every pair linearly comparable — then `sorted` succeeds and any stable sort
gives Python's output) and `pairwiseRaises` (every pair of distinct elements
definitely raises `TypeError` — then `sorted` raises at its first
comparison).  `definitelyRaises` under-approximates raising: it is `false`
on set/path pairs and on `pother` (an arbitrary object could define an
ordering protocol), so no theorem asserts an outcome Python does not have. -/

/-- Numeric value of a Python number (`bool` counts as `0`/`1`, exactly as in
Python, where `True == 1`). -/
def numVal : PyVal → Option Rat
  | .pbool b => some (if b then 1 else 0)
  | .pint n => some (n : Rat)
  | .pfloat q => some q
  | _ => none

/-- Three-way comparison of rationals. -/
def ratCmp (a b : Rat) : Ordering :=
  if a < b then .lt else if b < a then .gt else .eq

/-- Lexicographic three-way comparison of byte strings. -/
def byteCmp : List Nat → List Nat → Ordering
  | [], [] => .eq
  | [], _ :: _ => .lt
  | _ :: _, [] => .gt
  | a :: as, b :: bs => if a < b then .lt else if b < a then .gt else byteCmp as bs

/-- Three-way comparison of strings by code point, exactly Python's string
comparison (lexicographic on the sequences of code points). -/
def strCmp (a b : String) : Ordering :=
  byteCmp (a.data.map Char.toNat) (b.data.map Char.toNat)

/-! Python `<`-comparison: `some o` when Python compares the two values with
a linear-order outcome `o`, `none` when it does not (for the kinds listed in
the section comment, `none` means `TypeError`; for set/path operands it
means the comparison is not a linear one).  Tuple and list comparison walks
the elements: Python finds the first position whose elements are not equal
and compares there (equality of numbers is numeric, so `(1, x) == (True, x)`
positions are skipped, exactly as `ratCmp .. = .eq` skips them); a shorter
sequence that is a prefix of the longer is smaller. -/

mutual

def pyCmp (a b : PyVal) : Option Ordering :=
  match numVal a, numVal b with
  | some x, some y => some (ratCmp x y)
  | _, _ =>
    match a, b with
    | .pstr s, .pstr t => some (strCmp s t)
    | .pbytes s, .pbytes t => some (byteCmp s t)
    | .ptuple s, .ptuple t => pyCmpSpine s t
    | .plist s, .plist t => pyCmpSpine s t
    | _, _ => none

def pyCmpSpine : PyValList → PyValList → Option Ordering
  | .nil, .nil => some .eq
  | .nil, .cons _ _ => some .lt
  | .cons _ _, .nil => some .gt
  | .cons a as, .cons b bs =>
    match pyCmp a b with
    | some .eq => pyCmpSpine as bs
    | some o => some o
    | none => none

end

/-! Definite `TypeError`: `definitelyRaises a b = true` exactly when Python
`a < b` certainly raises.  It differs from `(pyCmp a b).isNone` only where
Python has a non-linear comparison: set/frozenset pairs and path pairs never
raise, and an arbitrary `pother` object might implement an ordering
protocol, so those yield `false`; inside tuples/lists the first position
with unequal elements decides, and only a raising comparison there raises. -/

mutual

def definitelyRaises (a b : PyVal) : Bool :=
  match a, b with
  | .pset _, .pset _ => false
  | .pset _, .pfrozenset _ => false
  | .pfrozenset _, .pset _ => false
  | .pfrozenset _, .pfrozenset _ => false
  | .ppath _, .ppath _ => false
  | .pother _, _ => false
  | _, .pother _ => false
  | .ptuple s, .ptuple t => definitelyRaisesSpine s t
  | .plist s, .plist t => definitelyRaisesSpine s t
  | _, _ => !(pyCmp a b).isSome

def definitelyRaisesSpine : PyValList → PyValList → Bool
  | .nil, _ => false
  | .cons _ _, .nil => false
  | .cons a as, .cons b bs =>
    match pyCmp a b with
    | some .eq => definitelyRaisesSpine as bs
    | some _ => false
    | none => definitelyRaises a b

end

/-- Whether `x` definitely raises against every element of the list. -/
def raisesAll (x : PyVal) : PyValList → Bool
  | .nil => true
  | .cons y ys => definitelyRaises x y && raisesAll x ys

/-- Whether every pair of distinct elements definitely raises `TypeError`
when compared — then `sorted` raises at its very first comparison (any two
elements it compares raise), and the source falls back to iteration order;
on lists of fewer than two elements `sorted` performs no comparison and this
predicate is vacuously true. -/
def pairwiseRaises : PyValList → Bool
  | .nil => true
  | .cons x xs => raisesAll x xs && pairwiseRaises xs

/-- Non-strict order used by the sort: `a` may stay left of `b`. -/
def pyLe (a b : PyVal) : Bool :=
  match pyCmp a b with
  | some .lt => true
  | some .eq => true
  | _ => false

/-- Whether Python can compare the two values at all. -/
def pyComparable (a b : PyVal) : Bool :=
  (pyCmp a b).isSome

/-- Whether `x` is comparable with every element of the list. -/
def comparableAll (x : PyVal) : PyValList → Bool
  | .nil => true
  | .cons y ys => pyComparable x y && comparableAll x ys

/-- Whether all pairs of elements are linearly comparable.  On such
collections Python's `<` restricted to the elements is a total preorder
(`pyCmp_then_trans` below), so `sorted` succeeds and every stable
comparison sort — CPython's Timsort included — produces the same output as
the stable insertion sort used in the model. -/
def mutuallyComparable : PyValList → Bool
  | .nil => true
  | .cons x xs => comparableAll x xs && mutuallyComparable xs

/-- Order on (element, serialized element) pairs that compares the original
elements only, exactly the comparisons `sorted(obj)` performs. -/
def pairLe (p q : PyVal × PyVal) : Prop :=
  pyLe p.1 q.1 = true

instance : DecidableRel pairLe := fun p q =>
  inferInstanceAs (Decidable (pyLe p.1 q.1 = true))

/-- Order on the original elements as a `Prop`, for sortedness statements. -/
def pyLeP (a b : PyVal) : Prop :=
  pyLe a b = true

instance : DecidableRel pyLeP := fun a b =>
  inferInstanceAs (Decidable (pyLe a b = true))

/-! ## Python textual rendering

Dict keys pass through `str(k)` in `_make_serializable`, and the fallback
branch returns `str(obj)` (carried directly on the `pother` constructor).
`str`/`repr` are Python builtins, external to this repository; they are
modelled faithfully for the scalar values that occur as dict keys in practice
and plausibly (recursively, CPython-style punctuation) for containers.  No
theorem below depends on the rendering of a non-scalar key. -/

mutual

def pyRepr : PyVal → String
  | .pnone => "None"
  | .pbool b => if b then "True" else "False"
  | .pint n => toString n
  | .pfloat q => toString q
  | .pstr s => "\x27" ++ s ++ "\x27"
  | .pmodelV2 d => "Model(" ++ pyRepr d ++ ")"
  | .pmodelV1 d => "Model(" ++ pyRepr d ++ ")"
  | .pdataclass fs => "Dataclass(" ++ pyReprFields fs ++ ")"
  | .penum label _ => "<" ++ label ++ ">"
  | .pset xs => "\x7b" ++ pyReprElems xs ++ "\x7d"
  | .pfrozenset xs => "frozenset(\x7b" ++ pyReprElems xs ++ "\x7d)"
  | .pdict kvs => "\x7b" ++ pyReprPairs kvs ++ "\x7d"
  | .plist xs => "[" ++ pyReprElems xs ++ "]"
  | .ptuple xs => "(" ++ pyReprElems xs ++ ")"
  | .pbytes bs => "b\x27" ++ String.intercalate "" (bs.map (fun b => "\\x" ++ toString b)) ++ "\x27"
  | .ppath s => "Path(\x27" ++ s ++ "\x27)"
  | .pother r => r

def pyReprElems : PyValList → String
  | .nil => ""
  | .cons v .nil => pyRepr v
  | .cons v tl => pyRepr v ++ ", " ++ pyReprElems tl

def pyReprPairs : PyPairList → String
  | .nil => ""
  | .cons k v .nil => pyRepr k ++ ": " ++ pyRepr v
  | .cons k v tl => pyRepr k ++ ": " ++ pyRepr v ++ ", " ++ pyReprPairs tl

def pyReprFields : PyFieldList → String
  | .nil => ""
  | .cons n v .nil => n ++ "=" ++ pyRepr v
  | .cons n v tl => n ++ "=" ++ pyRepr v ++ ", " ++ pyReprFields tl

end

/-- Python `str()`.  It equals `repr()` except on strings (identity), paths
(the bare path), and enum members (`EnumClass.MEMBER`, the carried label). -/
def pyStr (v : PyVal) : String :=
  match v with
  | .pstr s => s
  | .ppath s => s
  | .penum label _ => label
  | _ => pyRepr v

/-! ## UTF-8 decoding

`_make_serializable` tries `obj.decode("utf-8")` on bytes.  `utf8Decode` is a
strict validating UTF-8 decoder (RFC 3629): it rejects continuation-byte
errors, overlong encodings, surrogate code points and code points above
`0x10FFFF`, exactly the inputs on which CPython raises `UnicodeDecodeError`. -/

/-- Whether a byte is a UTF-8 continuation byte (`0x80..0xBF`). -/
def isContByte (b : Nat) : Bool :=
  0x80 ≤ b && b < 0xC0

/-- Strict UTF-8 decoder returning the decoded code points. -/
def utf8DecodeChars : List Nat → Option (List Char)
  | [] => some []
  | b :: rest =>
    if b < 0x80 then
      (utf8DecodeChars rest).map (fun cs => Char.ofNat b :: cs)
    else if b < 0xC2 then
      none
    else if b < 0xE0 then
      match rest with
      | c1 :: rest1 =>
        if isContByte c1 then
          (utf8DecodeChars rest1).map
            (fun cs => Char.ofNat ((b - 0xC0) * 64 + (c1 - 0x80)) :: cs)
        else none
      | [] => none
    else if b < 0xF0 then
      match rest with
      | c1 :: c2 :: rest2 =>
        if (if b = 0xE0 then 0xA0 ≤ c1 && c1 < 0xC0
            else if b = 0xED then 0x80 ≤ c1 && c1 < 0xA0
            else isContByte c1) && isContByte c2 then
          (utf8DecodeChars rest2).map
            (fun cs =>
              Char.ofNat ((b - 0xE0) * 4096 + (c1 - 0x80) * 64 + (c2 - 0x80)) :: cs)
        else none
      | _ => none
    else if b < 0xF5 then
      match rest with
      | c1 :: c2 :: c3 :: rest3 =>
        if (if b = 0xF0 then 0x90 ≤ c1 && c1 < 0xC0
            else if b = 0xF4 then 0x80 ≤ c1 && c1 < 0x90
            else isContByte c1) && isContByte c2 && isContByte c3 then
          (utf8DecodeChars rest3).map
            (fun cs =>
              Char.ofNat ((b - 0xF0) * 262144 + (c1 - 0x80) * 4096 +
                (c2 - 0x80) * 64 + (c3 - 0x80)) :: cs)
        else none
      | _ => none
    else
      none

/-- Decoded text of a byte string, when it is valid UTF-8. -/
def utf8Decode (bs : List Nat) : Option String :=
  (utf8DecodeChars bs).map String.mk

/-! ## Base64

On undecodable bytes the serializer returns
`base64.b64encode(obj).decode("ascii")`.  `b64EncodeChars` is standard Base64
(RFC 4648) with `=` padding, as implemented by `base64.b64encode`;
`b64DecodeChars` is the standard decoding used to state the round-trip
property of the claim. -/

/-- The Base64 alphabet. -/
def b64Alphabet : List Char :=
  "ABCDEFGHIJKLMNOPQRSTUVWXYZabcdefghijklmnopqrstuvwxyz0123456789+/".data

/-- Character of a sextet. -/
def b64Char (n : Nat) : Char :=
  b64Alphabet.getD n "A".head

/-- Sextet of an alphabet character. -/
def b64CharVal (c : Char) : Option Nat :=
  b64Alphabet.indexOf? c

/-- Base64 encoding of a byte string, three bytes to four characters with
final-group padding. -/
def b64EncodeChars : List Nat → List Char
  | [] => []
  | [a] => [b64Char (a / 4), b64Char (a % 4 * 16), "=".head, "=".head]
  | [a, b] => [b64Char (a / 4), b64Char (a % 4 * 16 + b / 16),
      b64Char (b % 16 * 4), "=".head]
  | a :: b :: c :: rest =>
      b64Char (a / 4) :: b64Char (a % 4 * 16 + b / 16) ::
        b64Char (b % 16 * 4 + c / 64) :: b64Char (c % 64) :: b64EncodeChars rest

/-- The ASCII Base64 string the serializer returns for undecodable bytes. -/
def b64EncodeString (bs : List Nat) : String :=
  String.mk (b64EncodeChars bs)

/-- Standard Base64 decoding; `none` on any malformed input. -/
def b64DecodeChars : List Char → Option (List Nat)
  | [] => some []
  | w :: x :: y :: z :: rest =>
    match b64CharVal w, b64CharVal x with
    | some a, some b =>
      if y = "=".head then
        if z = "=".head && rest = [] then some [a * 4 + b / 16] else none
      else
        match b64CharVal y with
        | some c =>
          if z = "=".head then
            if rest = [] then some [a * 4 + b / 16, b % 16 * 16 + c / 4] else none
          else
            match b64CharVal z with
            | some d =>
              (b64DecodeChars rest).map
                (fun t => (a * 4 + b / 16) :: (b % 16 * 16 + c / 4) :: (c % 4 * 64 + d) :: t)
            | none => none
        | none => none
    | _, _ => none
  | _ => none

/-- Standard Base64 decoding of a string. -/
def b64DecodeString (s : String) : Option (List Nat) :=
  b64DecodeChars s.data

/-! ## The serializer

`_make_serializable` from `helpers.py`, case by case in source order.  The
only non-obvious transcription is the set branch: the source evaluates
`[_make_serializable(item) for item in sorted(obj)]`, i.e. it sorts the
original elements and then serializes each.  To keep the recursion structural
the embedding first pairs every element with its serialization (`serPairs`,
structural) and then stable-sorts the pairs by the original element
(`List.insertionSort` with `pairLe`, which performs exactly the comparisons
`sorted` performs); projecting the second components afterwards yields the
serializations of the stably sorted originals.
`serializeSortCommute` below proves this equal to the direct
sort-then-serialize formulation. -/

mutual

def _make_serializable : PyVal → PyVal
  | .pnone => .pnone
  | .pbool b => .pbool b
  | .pint n => .pint n
  | .pfloat q => .pfloat q
  | .pstr s => .pstr s
  | .pmodelV2 dump => _make_serializable dump
  | .pmodelV1 d => _make_serializable d
  | .pdataclass fields => .pdict (serializeFields fields)
  | .penum _ value => value
  | .pset elems =>
    .plist (if mutuallyComparable elems then
        pyListOf ((List.insertionSort pairLe (serPairs elems)).map Prod.snd)
      else
        serializeElems elems)
  | .pfrozenset elems =>
    .plist (if mutuallyComparable elems then
        pyListOf ((List.insertionSort pairLe (serPairs elems)).map Prod.snd)
      else
        serializeElems elems)
  | .pdict entries => .pdict (serializePairs entries)
  | .plist elems => .plist (serializeElems elems)
  | .ptuple elems => .plist (serializeElems elems)
  | .pbytes bs =>
    match utf8Decode bs with
    | some s => .pstr s
    | none => .pstr (b64EncodeString bs)
  | .ppath s => .pstr s
  | .pother reprStr => .pstr reprStr

def serializeElems : PyValList → PyValList
  | .nil => .nil
  | .cons v tl => .cons (_make_serializable v) (serializeElems tl)

def serPairs : PyValList → List (PyVal × PyVal)
  | .nil => []
  | .cons v tl => (v, _make_serializable v) :: serPairs tl

def serializePairs : PyPairList → PyPairList
  | .nil => .nil
  | .cons k v tl => .cons (.pstr (pyStr k)) (_make_serializable v) (serializePairs tl)

def serializeFields : PyFieldList → PyPairList
  | .nil => .nil
  | .cons name v tl => .cons (.pstr name) (_make_serializable v) (serializeFields tl)

end

/-- The set/frozenset branch of `_make_serializable` as a named function
(definitionally equal to the branch body inlined above; kept outside the
mutual block so that the block stays structurally recursive). -/
def serializeSet (elems : PyValList) : PyValList :=
  if mutuallyComparable elems then
    pyListOf ((List.insertionSort pairLe (serPairs elems)).map Prod.snd)
  else
    serializeElems elems

/-! ## Canonical values

The spec's Canonical Value: null, boolean, number, string, an ordered
sequence of canonical values, or a mapping from strings to canonical
values. -/

mutual

def isCanonical : PyVal → Bool
  | .pnone => true
  | .pbool _ => true
  | .pint _ => true
  | .pfloat _ => true
  | .pstr _ => true
  | .plist elems => isCanonicalElems elems
  | .pdict entries => isCanonicalPairs entries
  | _ => false

def isCanonicalElems : PyValList → Bool
  | .nil => true
  | .cons v tl => isCanonical v && isCanonicalElems tl

def isCanonicalPairs : PyPairList → Bool
  | .nil => true
  | .cons k v tl =>
    (match k with | .pstr _ => true | _ => false) &&
      isCanonical v && isCanonicalPairs tl

end

/-- Whether a value is one of the scalar primitives the first branch of
`_make_serializable` returns unchanged. -/
def isScalarPrim : PyVal → Bool
  | .pnone => true
  | .pbool _ => true
  | .pint _ => true
  | .pfloat _ => true
  | .pstr _ => true
  | _ => false

/-! These predicates restrict enum members to scalar underlying values; the
enum branch of the source returns `obj.value` without recursing, so a
non-scalar enum value escapes serialization raw. -/

mutual

def enumsScalar : PyVal → Bool
  | .pnone => true
  | .pbool _ => true
  | .pint _ => true
  | .pfloat _ => true
  | .pstr _ => true
  | .pmodelV2 dump => enumsScalar dump
  | .pmodelV1 d => enumsScalar d
  | .pdataclass fields => enumsScalarFields fields
  | .penum _ value => isScalarPrim value
  | .pset elems => enumsScalarElems elems
  | .pfrozenset elems => enumsScalarElems elems
  | .pdict entries => enumsScalarPairs entries
  | .plist elems => enumsScalarElems elems
  | .ptuple elems => enumsScalarElems elems
  | .pbytes _ => true
  | .ppath _ => true
  | .pother _ => true

def enumsScalarElems : PyValList → Bool
  | .nil => true
  | .cons v tl => enumsScalar v && enumsScalarElems tl

def enumsScalarPairs : PyPairList → Bool
  | .nil => true
  | .cons _ v tl => enumsScalar v && enumsScalarPairs tl

def enumsScalarFields : PyFieldList → Bool
  | .nil => true
  | .cons _ v tl => enumsScalar v && enumsScalarFields tl

end

/-! The JSON renderer behind `safe_json_serialize` is
`json.dumps(·, indent=2, default=str)`, a Python builtin.  It is modelled
compactly (the 2-space indentation is layout only; no claim inspects the
whitespace): native JSON forms are rendered structurally, and — this is the
`default=str` net — any leaf `json.dumps` cannot encode natively is rendered
as the JSON string of its `str()`.  String escaping is abstracted to plain
quoting; dict keys are rendered through `str`, which on the serializer's
output (always string keys) agrees with `json.dumps`. -/

mutual

def jsonDumps : PyVal → String
  | .pnone => "null"
  | .pbool b => if b then "true" else "false"
  | .pint n => toString n
  | .pfloat q => toString q
  | .pstr s => "\x22" ++ s ++ "\x22"
  | .plist elems => "[" ++ jsonDumpsElems elems ++ "]"
  | .ptuple elems => "[" ++ jsonDumpsElems elems ++ "]"
  | .pdict entries => "\x7b" ++ jsonDumpsPairs entries ++ "\x7d"
  | v => "\x22" ++ pyStr v ++ "\x22"

def jsonDumpsElems : PyValList → String
  | .nil => ""
  | .cons v .nil => jsonDumps v
  | .cons v tl => jsonDumps v ++ ", " ++ jsonDumpsElems tl

def jsonDumpsPairs : PyPairList → String
  | .nil => ""
  | .cons k v .nil => "\x22" ++ pyStr k ++ "\x22: " ++ jsonDumps v
  | .cons k v tl =>
    "\x22" ++ pyStr k ++ "\x22: " ++ jsonDumps v ++ ", " ++ jsonDumpsPairs tl

end

/-- Models `safe_json_serialize` from `helpers.py`: convert with
`_make_serializable`, then render with `json.dumps(·, indent=2, default=str)`.
Total by construction, mirroring that the Python function cannot raise on the
modelled values. -/
def safe_json_serialize (v : PyVal) : String :=
  jsonDumps (_make_serializable v)

/-! ## Exceptions and the error translator

`handle_skypilot_error` in `helpers.py` wraps a tool function in a chain of
`except` clauses.  Exception classes are modelled as a flat enumeration of
the kinds named by an `except` clause plus `otherExc` for any other type; a
raised exception of one of the named kinds is caught by its own clause, which
in the source chain always precedes any clause for one of its base classes
(the collaborator's internal subclass relations are external to this
repository and play no further role).  `ToolError` — the protocol error —
is a separate constructor, since the first clause re-raises it untouched. -/

inductive SkyExcClass where
  | apiServerAuthenticationError
  | permissionDeniedError
  | userRequestRejectedByPolicy
  | apiServerConnectionError
  | serverTemporarilyUnavailableError
  | apiVersionMismatchError
  | apiNotSupportedError
  | clusterDoesNotExist
  | clusterNotUpError
  | clusterSetUpError
  | invalidClusterNameError
  | resourcesUnavailableError
  | cloudError
  | invalidCloudConfigs
  | invalidCloudCredentials
  | noCloudAccessError
  | networkError
  | storageError
  | volumeNotFoundError
  | volumeNotReadyError
  | portDoesNotExistError
  | commandError
  | notSupportedError
  | requestCancelled
  | valueError
  | timeoutError
  | runtimeError
  | otherExc (typeName : String)
  deriving DecidableEq

/-- Python `type(e).__name__` for the modelled exception classes. -/
def excTypeName : SkyExcClass → String
  | .apiServerAuthenticationError => "ApiServerAuthenticationError"
  | .permissionDeniedError => "PermissionDeniedError"
  | .userRequestRejectedByPolicy => "UserRequestRejectedByPolicy"
  | .apiServerConnectionError => "ApiServerConnectionError"
  | .serverTemporarilyUnavailableError => "ServerTemporarilyUnavailableError"
  | .apiVersionMismatchError => "APIVersionMismatchError"
  | .apiNotSupportedError => "APINotSupportedError"
  | .clusterDoesNotExist => "ClusterDoesNotExist"
  | .clusterNotUpError => "ClusterNotUpError"
  | .clusterSetUpError => "ClusterSetUpError"
  | .invalidClusterNameError => "InvalidClusterNameError"
  | .resourcesUnavailableError => "ResourcesUnavailableError"
  | .cloudError => "CloudError"
  | .invalidCloudConfigs => "InvalidCloudConfigs"
  | .invalidCloudCredentials => "InvalidCloudCredentials"
  | .noCloudAccessError => "NoCloudAccessError"
  | .networkError => "NetworkError"
  | .storageError => "StorageError"
  | .volumeNotFoundError => "VolumeNotFoundError"
  | .volumeNotReadyError => "VolumeNotReadyError"
  | .portDoesNotExistError => "PortDoesNotExistError"
  | .commandError => "CommandError"
  | .notSupportedError => "NotSupportedError"
  | .requestCancelled => "RequestCancelled"
  | .valueError => "ValueError"
  | .timeoutError => "TimeoutError"
  | .runtimeError => "RuntimeError"
  | .otherExc typeName => typeName

/-- A raised Python exception: either the protocol error (`ToolError`) or a
collaborator/builtin exception of a given class carrying `str(e)`. -/
inductive PyException where
  | toolError (msg : String)
  | skyExc (cls : SkyExcClass) (msg : String)
  deriving DecidableEq

/-- The ordered `except` chain of `handle_skypilot_error`, one entry per
clause in source order, each with the message it formats from `str(e)`.  The
final `except Exception` catch-all is not an entry: it is the fallthrough of
`handle_skypilot_error` below. -/
def toolErrorTable : List (SkyExcClass × (String → String)) :=
  [(.apiServerAuthenticationError,
      fun m => "Authentication required: " ++ m ++
        ". Use skypilot_api_login to authenticate."),
   (.permissionDeniedError, fun m => "Permission denied: " ++ m),
   (.userRequestRejectedByPolicy,
      fun m => "Request rejected by admin policy: " ++ m),
   (.apiServerConnectionError, fun m => "API server unreachable: " ++ m),
   (.serverTemporarilyUnavailableError,
      fun m => "API server temporarily unavailable (retry later): " ++ m),
   (.apiVersionMismatchError, fun m => "API version mismatch: " ++ m),
   (.apiNotSupportedError, fun m => "API not supported by server: " ++ m),
   (.clusterDoesNotExist, fun m => "Cluster not found: " ++ m),
   (.clusterNotUpError, fun m => "Cluster not up: " ++ m),
   (.clusterSetUpError, fun m => "Cluster setup failed: " ++ m),
   (.invalidClusterNameError, fun m => "Invalid cluster name: " ++ m),
   (.resourcesUnavailableError, fun m => "Resources unavailable: " ++ m),
   (.cloudError, fun m => "Cloud provider error: " ++ m),
   (.invalidCloudConfigs, fun m => "Invalid cloud configuration: " ++ m),
   (.invalidCloudCredentials, fun m => "Invalid cloud credentials: " ++ m),
   (.noCloudAccessError, fun m => "No cloud access: " ++ m),
   (.networkError, fun m => "Network error: " ++ m),
   (.storageError, fun m => "Storage error: " ++ m),
   (.volumeNotFoundError, fun m => "Volume not found: " ++ m),
   (.volumeNotReadyError, fun m => "Volume not ready: " ++ m),
   (.portDoesNotExistError, fun m => "Port not found: " ++ m),
   (.commandError, fun m => "Command error: " ++ m),
   (.notSupportedError, fun m => "Not supported: " ++ m),
   (.requestCancelled, fun m => "Request cancelled: " ++ m),
   (.valueError, fun m => "Invalid input: " ++ m),
   (.timeoutError, fun m => "Timeout: " ++ m)]

/-- Models the exception translation performed by the wrapper that
`handle_skypilot_error` installs: a `ToolError` is re-raised unchanged; any
other exception is matched against the clause chain in order (first match
wins) and re-raised as a `ToolError` with the clause's message; an exception
matching no clause falls through to `except Exception`, which raises
`ToolError(f(type(e).__name__): (e)-message)`. -/
def handle_skypilot_error (e : PyException) : PyException :=
  match e with
  | .toolError m => .toolError m
  | .skyExc cls m =>
    match toolErrorTable.find? (fun p => p.1 == cls) with
    | some p => .toolError (p.2 m)
    | none => .toolError (excTypeName cls ++ ": " ++ m)

/-- Modelled from the spec: the §4.3 table's message head and trailing
remediation hint for every raised kind the table lists (`none` for kinds the
table covers only through the catch-all).  Written from the spec's table to
be compared with `handle_skypilot_error`, which is transcribed from the
source. -/
def specTableEntry : SkyExcClass → Option (String × String)
  | .apiServerAuthenticationError =>
    some ("Authentication required: ", ". Use skypilot_api_login to authenticate.")
  | .permissionDeniedError => some ("Permission denied: ", "")
  | .userRequestRejectedByPolicy => some ("Request rejected by admin policy: ", "")
  | .apiServerConnectionError => some ("API server unreachable: ", "")
  | .serverTemporarilyUnavailableError =>
    some ("API server temporarily unavailable (retry later): ", "")
  | .apiVersionMismatchError => some ("API version mismatch: ", "")
  | .apiNotSupportedError => some ("API not supported by server: ", "")
  | .clusterDoesNotExist => some ("Cluster not found: ", "")
  | .clusterNotUpError => some ("Cluster not up: ", "")
  | .clusterSetUpError => some ("Cluster setup failed: ", "")
  | .invalidClusterNameError => some ("Invalid cluster name: ", "")
  | .resourcesUnavailableError => some ("Resources unavailable: ", "")
  | .cloudError => some ("Cloud provider error: ", "")
  | .invalidCloudConfigs => some ("Invalid cloud configuration: ", "")
  | .invalidCloudCredentials => some ("Invalid cloud credentials: ", "")
  | .noCloudAccessError => some ("No cloud access: ", "")
  | .networkError => some ("Network error: ", "")
  | .storageError => some ("Storage error: ", "")
  | .volumeNotFoundError => some ("Volume not found: ", "")
  | .volumeNotReadyError => some ("Volume not ready: ", "")
  | .portDoesNotExistError => some ("Port not found: ", "")
  | .commandError => some ("Command error: ", "")
  | .notSupportedError => some ("Not supported: ", "")
  | .requestCancelled => some ("Request cancelled: ", "")
  | .valueError => some ("Invalid input: ", "")
  | .timeoutError => some ("Timeout: ", "")
  | _ => none

/-- Outcome of one invocation of a function guarded by the decorator: the
wrapped callable either returns a value or raises. -/
def guardedCall (outcome : Except PyException PyVal) : Except PyException PyVal :=
  match outcome with
  | .ok v => .ok v
  | .error e => .error (handle_skypilot_error e)

/-! ## Request resolver

`resolve_request` submits `sky.get(request_id)` to a fresh single-worker
pool and waits at most `timeout` seconds.  The collaborator fetch is modelled
by an oracle: how long it would take to finish, and whether it would return a
value or raise.  Real elapsed time is abstracted to that single duration:
the future completes within the window iff `fetchDuration ≤ timeout`. -/

/-- Default timeout for `resolve_request` (`helpers.py`). -/
def DEFAULT_RESOLVE_TIMEOUT : Nat := 580

/-- Outer MCP protocol-level per-call timeout; from the source comment next to
`DEFAULT_RESOLVE_TIMEOUT` ("Slightly less than the MCP tool timeout (600s)").
The 600-second bound itself lives in the MCP framework, outside this
repository. -/
def MCP_TOOL_TIMEOUT : Nat := 600

/-- Behaviour of the collaborator's `sky.get` for one request. -/
inductive FetchOutcome where
  | value (v : PyVal)
  | raises (e : PyException)
  deriving DecidableEq

/-- Models `resolve_request`: the fetched result (or its exception) when the
fetch finishes inside the window; otherwise cancel best-effort and raise
`TimeoutError` naming the request, the bound, and the status-polling tool. -/
def resolve_request (request_id : String) (timeout : Nat)
    (fetchDuration : Nat) (fetch : FetchOutcome) : Except PyException PyVal :=
  if fetchDuration ≤ timeout then
    match fetch with
    | .value v => .ok v
    | .raises e => .error e
  else
    .error (.skyExc .timeoutError
      ("Request " ++ request_id ++ " did not complete within " ++
        toString timeout ++ "s. The request may still be running on the server. " ++
        "Use skypilot_api_status to check its status."))

/-! ## YAML entry-point validation

`create_task_from_yaml` and `load_dag_from_yaml` reject empty/whitespace
input before ever touching the SDK parser. -/

/-- Python whitespace as `str.strip()` removes it: CPython strips exactly the
code points with the Unicode whitespace property plus the ASCII/Latin-1
control separators, i.e. `0x09`-`0x0D`, `0x1C`-`0x1F`, `0x20`, `0x85`,
`0xA0`, `0x1680`, `0x2000`-`0x200A`, `0x2028`, `0x2029`, `0x202F`, `0x205F`
and `0x3000`. -/
def pyIsSpace (c : Char) : Bool :=
  (0x09 ≤ c.toNat && c.toNat ≤ 0x0D) ||
  (0x1C ≤ c.toNat && c.toNat ≤ 0x1F) ||
  c.toNat = 0x20 || c.toNat = 0x85 || c.toNat = 0xA0 ||
  c.toNat = 0x1680 ||
  (0x2000 ≤ c.toNat && c.toNat ≤ 0x200A) ||
  c.toNat = 0x2028 || c.toNat = 0x2029 || c.toNat = 0x202F ||
  c.toNat = 0x205F || c.toNat = 0x3000

/-- Python `str.strip()`: drop leading and trailing whitespace. -/
def pyStrip (s : String) : String :=
  String.mk (((s.data.dropWhile pyIsSpace).reverse.dropWhile pyIsSpace).reverse)

/-- Result of one call to a YAML entry point: `ValueError` raised before the
SDK is touched, or the collaborator parser invoked with the given string. -/
inductive YamlParseOutcome where
  | valueErrorRaised (msg : String)
  | sdkParse (yaml : String)
  deriving DecidableEq

/-- Models `create_task_from_yaml`: `not yaml_str or not yaml_str.strip()`
raises `ValueError`; otherwise `sky.Task.from_yaml_str(yaml_str)` runs. -/
def create_task_from_yaml (yaml_str : String) : YamlParseOutcome :=
  if yaml_str = "" || pyStrip yaml_str = "" then
    .valueErrorRaised "task_yaml must be a non-empty YAML string."
  else
    .sdkParse yaml_str

/-- Models `load_dag_from_yaml`: same guard, then
`dag_utils.load_chain_dag_from_yaml_str(yaml_str)`. -/
def load_dag_from_yaml (yaml_str : String) : YamlParseOutcome :=
  if yaml_str = "" || pyStrip yaml_str = "" then
    .valueErrorRaised "task_yaml must be a non-empty YAML string."
  else
    .sdkParse yaml_str

/-! ## Log capture adapters

Each adapter creates a buffer, invokes a collaborator tail call with
`follow=False` and the buffer, and checks the exit code.  The collaborator
call is modelled by the argument record the adapter builds for it (dynamic
typing makes the `tail` argument an optional integer: `none` is Python
`None`, `some n` an `int`) together with an oracle for its behaviour: the
exit code it returns and the text it writes to the buffer (for the autostop
tool, to the redirected stdout/stderr).  Each adapter returns the call
record alongside the call's outcome. -/

/-- Behaviour of one collaborator tail call. -/
structure TailBehavior where
  exitCode : Int
  written : String
  deriving DecidableEq

/-- Arguments `capture_cluster_logs` passes to `sky.tail_logs`. -/
structure ClusterTailCall where
  cluster_name : String
  job_id : Option Int
  follow : Bool
  tail : Option Int
  deriving DecidableEq

/-- Arguments `capture_managed_job_logs` passes to `sky.jobs.tail_logs`. -/
structure JobsTailCall where
  name : Option String
  job_id : Option Int
  follow : Bool
  controller : Bool
  refresh : Bool
  task : Option String
  tail : Option Int
  deriving DecidableEq

/-- Arguments `capture_serve_logs` passes to `sky.serve.tail_logs`. -/
structure ServeTailCall where
  service_name : String
  target : String
  replica_id : Option Int
  follow : Bool
  tail : Option Int
  deriving DecidableEq

/-- Arguments `capture_pool_logs` passes to `sky.jobs.pool_tail_logs`. -/
structure PoolTailCall where
  pool_name : String
  target : String
  worker_id : Option Int
  follow : Bool
  tail : Option Int
  deriving DecidableEq

/-- Arguments `skypilot_tail_autostop_logs` passes to
`sky.tail_autostop_logs` (no output stream: the tool redirects the global
stdout/stderr under the process lock instead). -/
structure AutostopTailCall where
  cluster_name : String
  follow : Bool
  tail : Option Int
  deriving DecidableEq

/-- Python rendering of an `int | None` inside an f-string. -/
def optIntStr : Option Int → String
  | none => "None"
  | some n => toString n

/-- Models `capture_cluster_logs`: pass `tail` through to `sky.tail_logs`
unchanged (this adapter performs no `0 -> None` conversion), raise
`RuntimeError` naming the cluster and exit code when the call reports a
non-zero exit code, otherwise return the buffer. -/
def capture_cluster_logs (cluster_name : String) (job_id : Option Int)
    (tail : Int) (beh : TailBehavior) :
    ClusterTailCall × Except PyException String :=
  (⟨cluster_name, job_id, false, some tail⟩,
   if beh.exitCode ≠ 0 then
     .error (.skyExc .runtimeError
       ("Failed to retrieve logs for cluster \x27" ++ cluster_name ++
         "\x27 (job_id=" ++ optIntStr job_id ++ "): tail_logs returned exit code " ++
         toString beh.exitCode ++ "."))
   else
     .ok beh.written)

/-- Python `name or job_id` rendered inside the f-string of
`capture_managed_job_logs`: the name when truthy, else the job id. -/
def managedJobIdentifier (name : Option String) (job_id : Option Int) : String :=
  match name with
  | some s => if s = "" then optIntStr job_id else s
  | none => optIntStr job_id

/-- Models `capture_managed_job_logs`: `sdk_tail = None if tail == 0 else
tail`, then `sky.jobs.tail_logs`; non-zero exit raises `RuntimeError` naming
`name or job_id` and the exit code; zero exit returns the buffer. -/
def capture_managed_job_logs (name : Option String) (job_id : Option Int)
    (controller : Bool) (refresh : Bool) (task : Option String) (tail : Int)
    (beh : TailBehavior) : JobsTailCall × Except PyException String :=
  (⟨name, job_id, false, controller, refresh, task,
     if tail = 0 then none else some tail⟩,
   if beh.exitCode ≠ 0 then
     .error (.skyExc .runtimeError
       ("Failed to retrieve managed job logs (" ++
         managedJobIdentifier name job_id ++ "): tail_logs returned exit code " ++
         toString beh.exitCode ++ "."))
   else
     .ok beh.written)

/-- Models `capture_serve_logs`: `sdk_tail = None if tail == 0 else tail`,
then `sky.serve.tail_logs`; the return value of the SDK call is discarded and
the buffer is returned unconditionally. -/
def capture_serve_logs (service_name : String) (target : String)
    (replica_id : Option Int) (tail : Int) (beh : TailBehavior) :
    ServeTailCall × Except PyException String :=
  (⟨service_name, target, replica_id, false,
     if tail = 0 then none else some tail⟩,
   .ok beh.written)

/-- Models `capture_pool_logs`: `sdk_tail = None if tail == 0 else tail`,
then `sky.jobs.pool_tail_logs`; the return value of the SDK call is discarded
and the buffer is returned unconditionally. -/
def capture_pool_logs (pool_name : String) (target : String)
    (worker_id : Option Int) (tail : Int) (beh : TailBehavior) :
    PoolTailCall × Except PyException String :=
  (⟨pool_name, target, worker_id, false,
     if tail = 0 then none else some tail⟩,
   .ok beh.written)

/-- Models the body of the `skypilot_tail_autostop_logs` tool
(`tools/logs.py`): capture redirected output, raise `RuntimeError` naming
the cluster and exit code — appending the captured output when non-empty —
on a non-zero exit code, otherwise return the captured output. -/
def skypilot_tail_autostop_logs (cluster_name : String) (tail : Int)
    (beh : TailBehavior) : AutostopTailCall × Except PyException String :=
  (⟨cluster_name, false, some tail⟩,
   if beh.exitCode ≠ 0 then
     .error (.skyExc .runtimeError
       ("Failed to retrieve autostop logs for cluster \x27" ++ cluster_name ++
         "\x27: exit code " ++ toString beh.exitCode ++ "." ++
         (if beh.written = "" then "" else "\nOutput: " ++ beh.written)))
   else
     .ok beh.written)

/-- Whether `needle` occurs contiguously inside the list. -/
def listHasInfix (needle : List Char) : List Char → Bool
  | [] => needle.isEmpty
  | a :: tl => needle.isPrefixOf (a :: tl) || listHasInfix needle tl

/-- Substring test used to state message-content properties. -/
def strContains (hay needle : String) : Bool :=
  listHasInfix needle.data hay.data

/-- Serialization of the stably sorted originals — the order of events the
source's set branch realizes (sort the elements first, then serialize each). -/
def serializeSortedElems (elems : PyValList) : PyValList :=
  pyListOf ((List.insertionSort pyLeP elems.toList).map _make_serializable)

/-- Modelled from the spec: the claim's reading of the set branch, "the
sorted sequence of the serialized elements" — serialize every element first,
then sort the resulting serialized values. -/
def sortedSerializedSet (elems : PyValList) : PyVal :=
  .plist (pyListOf (List.insertionSort pyLeP (elems.toList.map _make_serializable)))

/-! ## Order lemmas for the comparison model -/


theorem ratCmp_swap (a b : Rat) : ratCmp b a = (ratCmp a b).swap := by
  unfold ratCmp
  rcases lt_trichotomy a b with h | h | h
  · simp [h, asymm h, Ordering.swap]
  · subst h
    simp [lt_irrefl, Ordering.swap]
  · simp [h, asymm h, Ordering.swap]

theorem byteCmp_swap : ∀ s t : List Nat, byteCmp t s = (byteCmp s t).swap
  | [], [] => rfl
  | [], _ :: _ => rfl
  | _ :: _, [] => rfl
  | a :: as, b :: bs => by
    unfold byteCmp
    rcases lt_trichotomy a b with h | h | h
    · simp [h, asymm h, Ordering.swap]
    · subst h
      simp only [lt_irrefl, if_false]
      exact byteCmp_swap as bs
    · simp [h, asymm h, Ordering.swap]

theorem strCmp_swap (a b : String) : strCmp b a = (strCmp a b).swap :=
  byteCmp_swap _ _

theorem ratCmp_eq_eq {a b : Rat} (h : ratCmp a b = .eq) : a = b := by
  unfold ratCmp at h
  rcases lt_trichotomy a b with h1 | h1 | h1
  · simp [h1] at h
  · exact h1
  · simp [h1, asymm h1] at h

theorem byteCmp_eq_eq : ∀ {s t : List Nat}, byteCmp s t = .eq → s = t
  | [], [], _ => rfl
  | [], _ :: _, h => absurd h (by simp [byteCmp])
  | _ :: _, [], h => absurd h (by simp [byteCmp])
  | a :: as, b :: bs, h => by
    unfold byteCmp at h
    rcases lt_trichotomy a b with h1 | h1 | h1
    · simp [h1] at h
    · subst h1
      simp only [lt_irrefl, if_false] at h
      rw [byteCmp_eq_eq h]
    · simp [h1, asymm h1] at h

theorem charList_map_toNat_inj :
    ∀ {l1 l2 : List Char}, l1.map Char.toNat = l2.map Char.toNat → l1 = l2
  | [], [], _ => rfl
  | [], _ :: _, h => absurd h (by simp)
  | _ :: _, [], h => absurd h (by simp)
  | c :: cs, d :: ds, h => by
    have h2 := List.cons.inj h
    have hcd : c = d := by
      rw [← Char.ofNat_toNat c, ← Char.ofNat_toNat d, h2.1]
    rw [hcd, charList_map_toNat_inj h2.2]

theorem strCmp_eq_eq {a b : String} (h : strCmp a b = .eq) : a = b := by
  have h2 := charList_map_toNat_inj (byteCmp_eq_eq h)
  cases a
  cases b
  exact congrArg String.mk h2

theorem ratCmp_lt_lt {a b : Rat} (h : ratCmp a b = .lt) : a < b := by
  unfold ratCmp at h
  by_cases h1 : a < b
  · exact h1
  · rw [if_neg h1] at h
    split at h <;> simp_all


theorem ratCmp_of_lt {a b : Rat} (h : a < b) : ratCmp a b = .lt := by
  unfold ratCmp
  rw [if_pos h]

theorem byteCmp_self : ∀ l : List Nat, byteCmp l l = .eq
  | [] => rfl
  | a :: as => by
    show (if a < a then Ordering.lt else if a < a then Ordering.gt else byteCmp as as) = .eq
    rw [if_neg (lt_irrefl a), if_neg (lt_irrefl a)]
    exact byteCmp_self as

theorem byteCmp_cons_lt_iff {a b : Nat} {as bs : List Nat} :
    byteCmp (a :: as) (b :: bs) = .lt ↔ a < b ∨ (a = b ∧ byteCmp as bs = .lt) := by
  rw [show byteCmp (a :: as) (b :: bs) =
      (if a < b then .lt else if b < a then .gt else byteCmp as bs) from rfl]
  rcases lt_trichotomy a b with h | h | h
  · simp [h]
  · subst h
    rw [if_neg (lt_irrefl a), if_neg (lt_irrefl a)]
    simp
  · rw [if_neg (by omega : ¬a < b), if_pos h]
    constructor
    · intro hc
      exact absurd hc (by simp)
    · intro hc
      rcases hc with hc | hc
      · omega
      · omega

theorem byteCmp_lt_trans :
    ∀ {s t u : List Nat}, byteCmp s t = .lt → byteCmp t u = .lt → byteCmp s u = .lt
  | [], [], _, h1, _ => absurd h1 (by simp [byteCmp])
  | [], _ :: _, [], _, h2 => absurd h2 (by simp [byteCmp])
  | [], _ :: _, _ :: _, _, _ => by simp [byteCmp]
  | _ :: _, [], _, h1, _ => absurd h1 (by simp [byteCmp])
  | _ :: _, _ :: _, [], _, h2 => absurd h2 (by simp [byteCmp])
  | a :: as, b :: bs, c :: cs, h1, h2 => by
    rw [byteCmp_cons_lt_iff] at h1 h2 ⊢
    rcases h1 with h1 | ⟨hab, h1⟩
    · rcases h2 with h2 | ⟨hbc, h2⟩
      · exact Or.inl (by omega)
      · exact Or.inl (by omega)
    · rcases h2 with h2 | ⟨hbc, h2⟩
      · exact Or.inl (by omega)
      · exact Or.inr ⟨by omega, byteCmp_lt_trans h1 h2⟩

mutual

theorem pyCmp_swap : ∀ a b : PyVal, pyCmp b a = (pyCmp a b).map Ordering.swap
  | a, b => by
    cases a <;> cases b <;>
      first
        | rfl
        | exact congrArg some (ratCmp_swap _ _)
        | exact congrArg some (strCmp_swap _ _)
        | exact congrArg some (byteCmp_swap _ _)
        | exact pyCmpSpine_swap _ _

theorem pyCmpSpine_swap : ∀ s t : PyValList,
    pyCmpSpine t s = (pyCmpSpine s t).map Ordering.swap
  | .nil, .nil => rfl
  | .nil, .cons _ _ => rfl
  | .cons _ _, .nil => rfl
  | .cons a as, .cons b bs => by
    simp only [pyCmpSpine]
    rw [pyCmp_swap a b]
    cases pyCmp a b with
    | none => rfl
    | some o =>
      cases o with
      | lt => rfl
      | gt => rfl
      | eq => exact pyCmpSpine_swap as bs

end

theorem pyComparable_symm (a b : PyVal) : pyComparable b a = pyComparable a b := by
  unfold pyComparable
  rw [pyCmp_swap]
  cases pyCmp a b <;> rfl

theorem not_isSome_none {α : Type} {o : Option α} (h : (!o.isSome) = true) :
    o = none := by
  cases o with
  | none => rfl
  | some v => exact Bool.noConfusion h

mutual

theorem definitelyRaises_none : ∀ a b : PyVal,
    definitelyRaises a b = true → pyCmp a b = none
  | a, b, h => by
    cases a <;> cases b <;>
      first
        | exact Bool.noConfusion h
        | exact definitelyRaisesSpine_none _ _ h
        | exact not_isSome_none h

theorem definitelyRaisesSpine_none : ∀ s t : PyValList,
    definitelyRaisesSpine s t = true → pyCmpSpine s t = none
  | .nil, .nil, h => Bool.noConfusion h
  | .nil, .cons _ _, h => Bool.noConfusion h
  | .cons _ _, .nil, h => Bool.noConfusion h
  | .cons a as, .cons b bs, h => by
    simp only [definitelyRaisesSpine] at h
    simp only [pyCmpSpine]
    cases hab : pyCmp a b with
    | none => rfl
    | some o =>
      rw [hab] at h
      cases o with
      | lt => exact Bool.noConfusion h
      | gt => exact Bool.noConfusion h
      | eq => exact definitelyRaisesSpine_none as bs h

end

theorem pyCmp_num {a c : PyVal} {x z : Rat} (hx : numVal a = some x)
    (hz : numVal c = some z) : pyCmp a c = some (ratCmp x z) := by
  cases a <;> (try exact Option.noConfusion hx) <;>
    cases c <;> (try exact Option.noConfusion hz) <;>
    (have hx2 := Option.some.inj hx
     have hz2 := Option.some.inj hz
     subst hx2
     subst hz2
     rfl)

theorem pyCmp_tuple (s t : PyValList) :
    pyCmp (.ptuple s) (.ptuple t) = pyCmpSpine s t :=
  rfl

theorem pyCmp_list (s t : PyValList) :
    pyCmp (.plist s) (.plist t) = pyCmpSpine s t :=
  rfl

theorem pyCmp_str (s t : String) : pyCmp (.pstr s) (.pstr t) = some (strCmp s t) :=
  rfl

theorem pyCmp_bytes (s t : List Nat) :
    pyCmp (.pbytes s) (.pbytes t) = some (byteCmp s t) :=
  rfl

theorem pyLe_of_cmp_lt {a b : PyVal} (h : pyCmp a b = some .lt) : pyLe a b = true := by
  unfold pyLe
  rw [h]

theorem pyLe_of_cmp_eq {a b : PyVal} (h : pyCmp a b = some .eq) : pyLe a b = true := by
  unfold pyLe
  rw [h]

theorem pyLe_some_cases {a b : PyVal} (h : pyLe a b = true) :
    pyCmp a b = some .lt ∨ pyCmp a b = some .eq := by
  unfold pyLe at h
  cases ho : pyCmp a b with
  | none =>
    rw [ho] at h
    exact Bool.noConfusion h
  | some o =>
    cases o with
    | lt => exact Or.inl rfl
    | eq => exact Or.inr rfl
    | gt =>
      rw [ho] at h
      exact Bool.noConfusion h

theorem pyLe_total_of_comparable {a b : PyVal} (h : pyComparable a b = true) :
    pyLe a b = true ∨ pyLe b a = true := by
  unfold pyComparable at h
  cases ho : pyCmp a b with
  | none =>
    rw [ho] at h
    exact Bool.noConfusion h
  | some o =>
    cases o with
    | lt => exact Or.inl (pyLe_of_cmp_lt ho)
    | eq => exact Or.inl (pyLe_of_cmp_eq ho)
    | gt =>
      refine Or.inr (pyLe_of_cmp_lt ?_)
      rw [pyCmp_swap, ho]
      rfl

theorem ratCmp_then {x y z : Rat} {o1 o2 : Ordering} (h1 : ratCmp x y = o1)
    (h2 : ratCmp y z = o2) (hn1 : o1 ≠ .gt) (hn2 : o2 ≠ .gt) :
    ratCmp x z = o1.then o2 := by
  cases o1 with
  | gt => exact absurd rfl hn1
  | eq =>
    have hxy := ratCmp_eq_eq h1
    subst hxy
    exact h2
  | lt =>
    have hxy := ratCmp_lt_lt h1
    cases o2 with
    | gt => exact absurd rfl hn2
    | eq =>
      have hyz := ratCmp_eq_eq h2
      subst hyz
      exact ratCmp_of_lt hxy
    | lt => exact ratCmp_of_lt (lt_trans hxy (ratCmp_lt_lt h2))

theorem byteCmp_then {x y z : List Nat} {o1 o2 : Ordering} (h1 : byteCmp x y = o1)
    (h2 : byteCmp y z = o2) (hn1 : o1 ≠ .gt) (hn2 : o2 ≠ .gt) :
    byteCmp x z = o1.then o2 := by
  cases o1 with
  | gt => exact absurd rfl hn1
  | eq =>
    have hxy := byteCmp_eq_eq h1
    subst hxy
    exact h2
  | lt =>
    cases o2 with
    | gt => exact absurd rfl hn2
    | eq =>
      have hyz := byteCmp_eq_eq h2
      subst hyz
      exact h1
    | lt => exact byteCmp_lt_trans h1 h2

theorem strCmp_then {x y z : String} {o1 o2 : Ordering} (h1 : strCmp x y = o1)
    (h2 : strCmp y z = o2) (hn1 : o1 ≠ .gt) (hn2 : o2 ≠ .gt) :
    strCmp x z = o1.then o2 :=
  byteCmp_then h1 h2 hn1 hn2

theorem pyCmp_then_num {a b c : PyVal} {x y z : Rat} {o1 o2 : Ordering}
    (hx : numVal a = some x) (hy : numVal b = some y) (hz : numVal c = some z)
    (h1 : pyCmp a b = some o1) (h2 : pyCmp b c = some o2)
    (hn1 : o1 ≠ .gt) (hn2 : o2 ≠ .gt) : pyCmp a c = some (o1.then o2) := by
  rw [pyCmp_num hx hy] at h1
  rw [pyCmp_num hy hz] at h2
  rw [pyCmp_num hx hz]
  exact congrArg some
    (ratCmp_then (Option.some.inj h1) (Option.some.inj h2) hn1 hn2)

mutual

theorem pyCmp_then_trans : ∀ (a b c : PyVal) {o1 o2 : Ordering},
    pyCmp a b = some o1 → pyCmp b c = some o2 → o1 ≠ .gt → o2 ≠ .gt →
    pyCmp a c = some (o1.then o2)
  | a, b, c, o1, o2, h1, h2, hn1, hn2 => by
    cases a <;> cases b <;>
      first
        | exact Option.noConfusion h1
        | (cases c <;>
            first
              | exact Option.noConfusion h2
              | exact pyCmp_then_num (by rfl) (by rfl) (by rfl) h1 h2 hn1 hn2
              | exact congrArg some
                  (strCmp_then (Option.some.inj h1) (Option.some.inj h2) hn1 hn2)
              | exact congrArg some
                  (byteCmp_then (Option.some.inj h1) (Option.some.inj h2) hn1 hn2)
              | exact pyCmpSpine_then_trans _ _ _ h1 h2 hn1 hn2)

theorem pyCmpSpine_then_trans : ∀ (s t u : PyValList) {o1 o2 : Ordering},
    pyCmpSpine s t = some o1 → pyCmpSpine t u = some o2 → o1 ≠ .gt → o2 ≠ .gt →
    pyCmpSpine s u = some (o1.then o2)
  | .nil, .nil, u, o1, o2, h1, h2, hn1, hn2 => by
    injection h1 with e1
    subst e1
    exact h2
  | .nil, .cons _ _, .nil, o1, o2, h1, h2, hn1, hn2 => by
    injection h2 with e2
    exact absurd e2.symm hn2
  | .nil, .cons _ _, .cons _ _, o1, o2, h1, h2, hn1, hn2 => by
    injection h1 with e1
    subst e1
    rfl
  | .cons _ _, .nil, _, o1, o2, h1, h2, hn1, hn2 => by
    injection h1 with e1
    exact absurd e1.symm hn1
  | .cons _ _, .cons _ _, .nil, o1, o2, h1, h2, hn1, hn2 => by
    injection h2 with e2
    exact absurd e2.symm hn2
  | .cons a as, .cons b bs, .cons c cs, o1, o2, h1, h2, hn1, hn2 => by
    simp only [pyCmpSpine] at h1 h2 ⊢
    cases hab : pyCmp a b with
    | none =>
      rw [hab] at h1
      exact Option.noConfusion h1
    | some oab =>
      rw [hab] at h1
      cases hbc : pyCmp b c with
      | none =>
        rw [hbc] at h2
        exact Option.noConfusion h2
      | some obc =>
        rw [hbc] at h2
        cases oab with
        | gt =>
          injection h1 with e1
          exact absurd e1.symm hn1
        | eq =>
          cases obc with
          | gt =>
            injection h2 with e2
            exact absurd e2.symm hn2
          | eq =>
            have hac : pyCmp a c = some Ordering.eq :=
              pyCmp_then_trans a b c hab hbc (by decide) (by decide)
            rw [hac]
            exact pyCmpSpine_then_trans as bs cs h1 h2 hn1 hn2
          | lt =>
            injection h2 with e2
            subst e2
            have hac : pyCmp a c = some Ordering.lt :=
              pyCmp_then_trans a b c hab hbc (by decide) (by decide)
            rw [hac]
            cases o1 with
            | gt => exact absurd rfl hn1
            | eq => rfl
            | lt => rfl
        | lt =>
          injection h1 with e1
          subst e1
          cases obc with
          | gt =>
            injection h2 with e2
            exact absurd e2.symm hn2
          | eq =>
            have hac : pyCmp a c = some Ordering.lt :=
              pyCmp_then_trans a b c hab hbc (by decide) (by decide)
            rw [hac]
            rfl
          | lt =>
            have hac : pyCmp a c = some Ordering.lt :=
              pyCmp_then_trans a b c hab hbc (by decide) (by decide)
            rw [hac]
            rfl

end

theorem pyLe_trans {a b c : PyVal} (h1 : pyLe a b = true) (h2 : pyLe b c = true) :
    pyLe a c = true := by
  rcases pyLe_some_cases h1 with d1 | d1 <;> rcases pyLe_some_cases h2 with d2 | d2
  · exact pyLe_of_cmp_lt (pyCmp_then_trans a b c d1 d2 (by decide) (by decide))
  · exact pyLe_of_cmp_lt (pyCmp_then_trans a b c d1 d2 (by decide) (by decide))
  · exact pyLe_of_cmp_lt (pyCmp_then_trans a b c d1 d2 (by decide) (by decide))
  · exact pyLe_of_cmp_eq (pyCmp_then_trans a b c d1 d2 (by decide) (by decide))

theorem toList_pyListOf : ∀ l : List PyVal, (pyListOf l).toList = l
  | [] => rfl
  | v :: tl => congrArg (List.cons v) (toList_pyListOf tl)

theorem pyListOf_toList : ∀ xs : PyValList, pyListOf xs.toList = xs
  | .nil => rfl
  | .cons v tl => congrArg (PyValList.cons v) (pyListOf_toList tl)

theorem comparableAll_iff (x : PyVal) :
    ∀ ys : PyValList,
      comparableAll x ys = true ↔ ∀ y ∈ ys.toList, pyComparable x y = true
  | .nil => by simp [comparableAll, PyValList.toList]
  | .cons y ys => by
    rw [comparableAll, Bool.and_eq_true, comparableAll_iff x ys, PyValList.toList]
    constructor
    · rintro ⟨h1, h2⟩ z hz
      rcases List.mem_cons.mp hz with rfl | hz
      · exact h1
      · exact h2 z hz
    · intro h
      exact ⟨h y (List.mem_cons_self y ys.toList),
        fun z hz => h z (List.mem_cons_of_mem y hz)⟩

theorem mutuallyComparable_pairwise :
    ∀ xs : PyValList, mutuallyComparable xs = true →
      xs.toList.Pairwise (fun a b => pyComparable a b = true)
  | .nil, _ => List.Pairwise.nil
  | .cons x xs, h => by
    rw [mutuallyComparable, Bool.and_eq_true] at h
    rw [PyValList.toList]
    exact List.pairwise_cons.mpr
      ⟨(comparableAll_iff x xs).mp h.1, mutuallyComparable_pairwise xs h.2⟩

theorem sorted_orderedInsert_comp (x : PyVal) :
    ∀ ys : List PyVal, List.Sorted pyLeP ys →
      (∀ y ∈ ys, pyComparable x y = true) →
      List.Sorted pyLeP (List.orderedInsert pyLeP x ys)
  | [], _, _ => List.sorted_singleton x
  | y :: ys, hs, hc => by
    by_cases h : pyLeP x y
    · rw [List.orderedInsert, if_pos h, List.sorted_cons]
      refine ⟨?_, hs⟩
      intro b hb
      rcases List.mem_cons.mp hb with rfl | hb
      · exact h
      · exact pyLe_trans h (List.rel_of_sorted_cons hs b hb)
    · rw [List.orderedInsert, if_neg h, List.sorted_cons]
      constructor
      · intro b hb
        rcases (List.mem_orderedInsert pyLeP).mp hb with heq | hb
        · subst heq
          rcases pyLe_total_of_comparable (hc y (List.mem_cons_self y ys)) with ht | ht
          · exact absurd ht h
          · exact ht
        · exact List.rel_of_sorted_cons hs b hb
      · exact sorted_orderedInsert_comp x ys hs.of_cons
          (fun z hz => hc z (List.mem_cons_of_mem y hz))

theorem sorted_insertionSort_comp :
    ∀ l : List PyVal, l.Pairwise (fun a b => pyComparable a b = true) →
      List.Sorted pyLeP (List.insertionSort pyLeP l)
  | [], _ => List.sorted_nil
  | x :: l, hp => by
    rw [List.insertionSort]
    have hp2 := List.pairwise_cons.mp hp
    refine sorted_orderedInsert_comp x _ (sorted_insertionSort_comp l hp2.2) ?_
    intro y hy
    exact hp2.1 y ((List.perm_insertionSort pyLeP l).mem_iff.mp hy)

/-! ## Structure lemmas for the serializer -/

theorem serPairs_eq :
    ∀ xs : PyValList,
      serPairs xs = xs.toList.map (fun v => (v, _make_serializable v))
  | .nil => rfl
  | .cons v tl =>
    congrArg (fun l => (v, _make_serializable v) :: l) (serPairs_eq tl)

theorem serializeElems_eq :
    ∀ xs : PyValList,
      serializeElems xs = pyListOf (xs.toList.map _make_serializable)
  | .nil => rfl
  | .cons v tl =>
    congrArg (PyValList.cons (_make_serializable v)) (serializeElems_eq tl)

/-- Under mutual comparability the set branch is exactly: stably sort the
original elements by Python order, then serialize each. -/
theorem serializeSet_eq_sorted {xs : PyValList} (h : mutuallyComparable xs = true) :
    serializeSet xs = serializeSortedElems xs := by
  rw [serializeSet, if_pos h, serPairs_eq]
  unfold serializeSortedElems
  congr 1
  rw [← List.map_insertionSort pyLeP pairLe (fun v => (v, _make_serializable v))
      xs.toList (fun a _ b _ => Iff.rfl)]
  rw [List.map_map]
  rfl

/-- Without mutual comparability the set branch serializes in iteration
order. -/
theorem serializeSet_eq_fallback {xs : PyValList}
    (h : mutuallyComparable xs = false) : serializeSet xs = serializeElems xs := by
  rw [serializeSet, if_neg (by rw [h]; exact Bool.noConfusion)]

/-! ## Canonicity and fixed points of the serializer -/

theorem band_split {a b : Bool} (h : (a && b) = true) : a = true ∧ b = true := by
  cases a <;> cases b <;> simp_all


/-- When every pair of distinct elements definitely raises, `sorted` raises a
`TypeError` at its first comparison (lists of fewer than two elements involve
no comparison and both branches coincide), so the source falls back to
serializing in iteration order. -/
theorem serializeSet_of_pairwiseRaises {xs : PyValList}
    (h : pairwiseRaises xs = true) : serializeSet xs = serializeElems xs := by
  cases xs with
  | nil => rfl
  | cons x t =>
    cases t with
    | nil => rfl
    | cons y t2 =>
      have h1 := (band_split h).1
      have hr := (band_split h1).1
      have hcmp : pyComparable x y = false := by
        unfold pyComparable
        rw [definitelyRaises_none x y hr]
        rfl
      have hmc : mutuallyComparable (.cons x (.cons y t2)) = false := by
        show ((pyComparable x y && comparableAll x t2) &&
          mutuallyComparable (.cons y t2)) = false
        rw [hcmp]
        rfl
      exact serializeSet_eq_fallback hmc

theorem band_intro {a b : Bool} (h1 : a = true) (h2 : b = true) : (a && b) = true := by
  rw [h1, h2]
  rfl

theorem isCanonicalElems_pyListOf :
    ∀ l : List PyVal, (∀ x ∈ l, isCanonical x = true) →
      isCanonicalElems (pyListOf l) = true
  | [], _ => rfl
  | v :: tl, h =>
    band_intro (h v (List.mem_cons_self v tl))
      (isCanonicalElems_pyListOf tl (fun x hx => h x (List.mem_cons_of_mem v hx)))

theorem isCanonical_of_scalar {v : PyVal} (h : isScalarPrim v = true) :
    isCanonical v = true := by
  cases v <;> first | rfl | exact Bool.noConfusion h

mutual

theorem makeSer_canonical :
    ∀ v : PyVal, enumsScalar v = true → isCanonical (_make_serializable v) = true
  | .pnone, _ => rfl
  | .pbool _, _ => rfl
  | .pint _, _ => rfl
  | .pfloat _, _ => rfl
  | .pstr _, _ => rfl
  | .pmodelV2 d, h => makeSer_canonical d h
  | .pmodelV1 d, h => makeSer_canonical d h
  | .pdataclass fs, h => serializeFields_canonical fs h
  | .penum _ _, h => isCanonical_of_scalar h
  | .pset xs, h => by
    show isCanonicalElems (if mutuallyComparable xs then
        pyListOf ((List.insertionSort pairLe (serPairs xs)).map Prod.snd)
      else serializeElems xs) = true
    by_cases hm : mutuallyComparable xs = true
    · rw [if_pos hm]
      refine isCanonicalElems_pyListOf _ ?_
      intro x hx
      rcases List.mem_map.mp hx with ⟨p, hp, hpx⟩
      rw [← hpx]
      exact serPairs_canonical xs h p
        ((List.perm_insertionSort pairLe (serPairs xs)).mem_iff.mp hp)
    · rw [if_neg hm]
      exact serializeElems_canonical xs h
  | .pfrozenset xs, h => by
    show isCanonicalElems (if mutuallyComparable xs then
        pyListOf ((List.insertionSort pairLe (serPairs xs)).map Prod.snd)
      else serializeElems xs) = true
    by_cases hm : mutuallyComparable xs = true
    · rw [if_pos hm]
      refine isCanonicalElems_pyListOf _ ?_
      intro x hx
      rcases List.mem_map.mp hx with ⟨p, hp, hpx⟩
      rw [← hpx]
      exact serPairs_canonical xs h p
        ((List.perm_insertionSort pairLe (serPairs xs)).mem_iff.mp hp)
    · rw [if_neg hm]
      exact serializeElems_canonical xs h
  | .pdict kvs, h => serializePairs_canonical kvs h
  | .plist xs, h => serializeElems_canonical xs h
  | .ptuple xs, h => serializeElems_canonical xs h
  | .pbytes bs, _ => by
    show isCanonical (match utf8Decode bs with
      | some s => .pstr s
      | none => .pstr (b64EncodeString bs)) = true
    cases utf8Decode bs <;> rfl
  | .ppath _, _ => rfl
  | .pother _, _ => rfl

theorem serializeElems_canonical :
    ∀ xs : PyValList, enumsScalarElems xs = true →
      isCanonicalElems (serializeElems xs) = true
  | .nil, _ => rfl
  | .cons v tl, h => by
    have hh := band_split h
    exact band_intro (makeSer_canonical v hh.1) (serializeElems_canonical tl hh.2)

theorem serializePairs_canonical :
    ∀ kvs : PyPairList, enumsScalarPairs kvs = true →
      isCanonicalPairs (serializePairs kvs) = true
  | .nil, _ => rfl
  | .cons _ v tl, h => by
    have hh := band_split h
    exact band_intro (band_intro rfl (makeSer_canonical v hh.1))
      (serializePairs_canonical tl hh.2)

theorem serializeFields_canonical :
    ∀ fs : PyFieldList, enumsScalarFields fs = true →
      isCanonicalPairs (serializeFields fs) = true
  | .nil, _ => rfl
  | .cons _ v tl, h => by
    have hh := band_split h
    exact band_intro (band_intro rfl (makeSer_canonical v hh.1))
      (serializeFields_canonical tl hh.2)

theorem serPairs_canonical :
    ∀ xs : PyValList, enumsScalarElems xs = true →
      ∀ p ∈ serPairs xs, isCanonical p.2 = true
  | .nil, _, p, hp => absurd hp (List.not_mem_nil p)
  | .cons v tl, h, p, hp => by
    have hh := band_split h
    rcases List.mem_cons.mp hp with rfl | hp2
    · exact makeSer_canonical v hh.1
    · exact serPairs_canonical tl hh.2 p hp2

end

mutual

theorem makeSer_fixed :
    ∀ v : PyVal, isCanonical v = true → _make_serializable v = v
  | .pnone, _ => rfl
  | .pbool _, _ => rfl
  | .pint _, _ => rfl
  | .pfloat _, _ => rfl
  | .pstr _, _ => rfl
  | .pmodelV2 _, h => Bool.noConfusion h
  | .pmodelV1 _, h => Bool.noConfusion h
  | .pdataclass _, h => Bool.noConfusion h
  | .penum _ _, h => Bool.noConfusion h
  | .pset _, h => Bool.noConfusion h
  | .pfrozenset _, h => Bool.noConfusion h
  | .pdict kvs, h => congrArg PyVal.pdict (serializePairs_fixed kvs h)
  | .plist xs, h => congrArg PyVal.plist (serializeElems_fixed xs h)
  | .ptuple _, h => Bool.noConfusion h
  | .pbytes _, h => Bool.noConfusion h
  | .ppath _, h => Bool.noConfusion h
  | .pother _, h => Bool.noConfusion h

theorem serializeElems_fixed :
    ∀ xs : PyValList, isCanonicalElems xs = true → serializeElems xs = xs
  | .nil, _ => rfl
  | .cons v tl, h => by
    have hh := band_split h
    show PyValList.cons (_make_serializable v) (serializeElems tl) = .cons v tl
    rw [makeSer_fixed v hh.1, serializeElems_fixed tl hh.2]

theorem serializePairs_fixed :
    ∀ kvs : PyPairList, isCanonicalPairs kvs = true → serializePairs kvs = kvs
  | .nil, _ => rfl
  | .cons k v tl, h => by
    have hh := band_split h
    have hk := band_split hh.1
    cases k <;> try exact Bool.noConfusion hk.1
    show PyPairList.cons (.pstr _) (_make_serializable v) (serializePairs tl) = _
    rw [makeSer_fixed v hk.2, serializePairs_fixed tl hh.2]
    rfl

end

/-! ## Base64 round-trip -/

theorem b64CharVal_b64Char : ∀ n, n < 64 → b64CharVal (b64Char n) = some n := by
  decide

theorem b64Char_ne_pad : ∀ n, n < 64 → ¬b64Char n = "=".head := by
  decide

theorem b64_roundtrip :
    ∀ bs : List Nat, (∀ b ∈ bs, b < 256) →
      b64DecodeChars (b64EncodeChars bs) = some bs
  | [], _ => rfl
  | [a], h => by
    have ha : a < 256 := h a (by simp)
    have h1 : b64CharVal (b64Char (a / 4)) = some (a / 4) :=
      b64CharVal_b64Char _ (by omega)
    have h2 : b64CharVal (b64Char (a % 4 * 16)) = some (a % 4 * 16) :=
      b64CharVal_b64Char _ (by omega)
    show b64DecodeChars
        [b64Char (a / 4), b64Char (a % 4 * 16), "=".head, "=".head] = some [a]
    rw [b64DecodeChars, h1, h2]
    dsimp only
    simp
    omega
  | [a, b], h => by
    have ha : a < 256 := h a (by simp)
    have hb : b < 256 := h b (by simp)
    have h1 : b64CharVal (b64Char (a / 4)) = some (a / 4) :=
      b64CharVal_b64Char _ (by omega)
    have h2 : b64CharVal (b64Char (a % 4 * 16 + b / 16)) = some (a % 4 * 16 + b / 16) :=
      b64CharVal_b64Char _ (by omega)
    have h3 : b64CharVal (b64Char (b % 16 * 4)) = some (b % 16 * 4) :=
      b64CharVal_b64Char _ (by omega)
    have h3ne : ¬b64Char (b % 16 * 4) = "=".head := b64Char_ne_pad _ (by omega)
    show b64DecodeChars
        [b64Char (a / 4), b64Char (a % 4 * 16 + b / 16), b64Char (b % 16 * 4),
          "=".head] = some [a, b]
    rw [b64DecodeChars, h1, h2]
    dsimp only
    rw [if_neg h3ne, h3]
    dsimp only
    simp
    omega
  | a :: b :: c :: rest, h => by
    have ha : a < 256 := h a (by simp)
    have hb : b < 256 := h b (by simp)
    have hc : c < 256 := h c (by simp)
    have h1 : b64CharVal (b64Char (a / 4)) = some (a / 4) :=
      b64CharVal_b64Char _ (by omega)
    have h2 : b64CharVal (b64Char (a % 4 * 16 + b / 16)) = some (a % 4 * 16 + b / 16) :=
      b64CharVal_b64Char _ (by omega)
    have h3 : b64CharVal (b64Char (b % 16 * 4 + c / 64)) = some (b % 16 * 4 + c / 64) :=
      b64CharVal_b64Char _ (by omega)
    have h4 : b64CharVal (b64Char (c % 64)) = some (c % 64) :=
      b64CharVal_b64Char _ (by omega)
    have h3ne : ¬b64Char (b % 16 * 4 + c / 64) = "=".head := b64Char_ne_pad _ (by omega)
    have h4ne : ¬b64Char (c % 64) = "=".head := b64Char_ne_pad _ (by omega)
    have ih := b64_roundtrip rest (fun x hx => h x (by simp [hx]))
    show b64DecodeChars
        (b64Char (a / 4) :: b64Char (a % 4 * 16 + b / 16) ::
          b64Char (b % 16 * 4 + c / 64) :: b64Char (c % 64) ::
          b64EncodeChars rest) = some (a :: b :: c :: rest)
    rw [b64DecodeChars, h1, h2]
    dsimp only
    rw [if_neg h3ne, h3]
    dsimp only
    rw [if_neg h4ne, h4]
    dsimp only
    rw [ih]
    simp
    omega

theorem b64Char_ascii (n : Nat) : (b64Char n).toNat < 128 := by
  by_cases h : n < 64
  · exact (by decide : ∀ m, m < 64 → (b64Char m).toNat < 128) n h
  · rw [b64Char, List.getD_eq_default]
    · decide
    · rw [show b64Alphabet.length = 64 from by decide]
      omega

theorem b64EncodeChars_ascii :
    ∀ bs : List Nat, ∀ c ∈ b64EncodeChars bs, c.toNat < 128
  | [], c, hc => absurd hc (List.not_mem_nil c)
  | [a], c, hc => by
    rcases List.mem_cons.mp hc with rfl | hc
    · exact b64Char_ascii _
    rcases List.mem_cons.mp hc with rfl | hc
    · exact b64Char_ascii _
    rcases List.mem_cons.mp hc with rfl | hc
    · decide
    rcases List.mem_cons.mp hc with rfl | hc
    · decide
    · exact absurd hc (List.not_mem_nil c)
  | [a, b], c, hc => by
    rcases List.mem_cons.mp hc with rfl | hc
    · exact b64Char_ascii _
    rcases List.mem_cons.mp hc with rfl | hc
    · exact b64Char_ascii _
    rcases List.mem_cons.mp hc with rfl | hc
    · exact b64Char_ascii _
    rcases List.mem_cons.mp hc with rfl | hc
    · decide
    · exact absurd hc (List.not_mem_nil c)
  | a :: b :: d :: rest, c, hc => by
    rcases List.mem_cons.mp hc with rfl | hc
    · exact b64Char_ascii _
    rcases List.mem_cons.mp hc with rfl | hc
    · exact b64Char_ascii _
    rcases List.mem_cons.mp hc with rfl | hc
    · exact b64Char_ascii _
    rcases List.mem_cons.mp hc with rfl | hc
    · exact b64Char_ascii _
    · exact b64EncodeChars_ascii rest c hc

/-! ## String stripping -/

theorem pyStrip_eq_empty_iff (s : String) :
    pyStrip s = "" ↔ ∀ c ∈ s.data, pyIsSpace c = true := by
  unfold pyStrip
  constructor
  · intro h
    have hl : ((s.data.dropWhile pyIsSpace).reverse.dropWhile pyIsSpace).reverse = [] :=
      congrArg String.data h
    rw [List.reverse_eq_nil_iff, List.dropWhile_eq_nil_iff] at hl
    intro c hc
    have hsplit : c ∈ s.data.takeWhile pyIsSpace ++ s.data.dropWhile pyIsSpace := by
      rw [List.takeWhile_append_dropWhile]
      exact hc
    rcases List.mem_append.mp hsplit with h1 | h1
    · exact List.mem_takeWhile_imp h1
    · exact hl c (List.mem_reverse.mpr h1)
  · intro h
    have h1 : s.data.dropWhile pyIsSpace = [] :=
      List.dropWhile_eq_nil_iff.mpr (fun x hx => h x hx)
    rw [h1]
    rfl

/-! ## Claim theorems -/

/-- Claim C1: every invocation of a function wrapped by `handle_skypilot_error`
that raises a collaborator failure kind listed in the translation table raises
a `ToolError` whose message is the table's category-specific prefix for that
kind, the original message, and (for the authentication entry) the table's
remediation hint, matching in table order with first match winning; any raised
failure not listed is raised as a `ToolError` whose message is the raised
kind's type name, a colon-space, and the original message.
`specTableEntry` is written from the spec's §4.3 table,
`handle_skypilot_error` from the source's `except` chain. -/
theorem claim_C1_translator_table :
    (∀ cls m hd tl, specTableEntry cls = some (hd, tl) →
        handle_skypilot_error (.skyExc cls m) = .toolError (hd ++ m ++ tl)) ∧
    (∀ cls m, specTableEntry cls = none →
        handle_skypilot_error (.skyExc cls m) =
          .toolError (excTypeName cls ++ ": " ++ m)) := by
  constructor
  · intro cls m hd tl hentry
    cases cls <;>
      first
        | exact Option.noConfusion hentry
        | (simp only [specTableEntry, Option.some.injEq, Prod.mk.injEq] at hentry
           obtain ⟨rfl, rfl⟩ := hentry
           first
             | rfl
             | (rw [String.append_empty]
                rfl))
  · intro cls m hnone
    cases cls <;>
      first
        | exact Option.noConfusion hnone
        | rfl

/-- Witness for C1: a "resources unavailable" failure with message
"no A100s" maps to exactly "Resources unavailable: no A100s", and an unlisted
`RuntimeError` maps through the catch-all to its type name and message. -/
theorem claim_C1_witness :
    handle_skypilot_error (.skyExc .resourcesUnavailableError "no A100s") =
      .toolError ("Resources unavailable: " ++ "no A100s" ++ "") ∧
    handle_skypilot_error (.skyExc .runtimeError "something broke") =
      .toolError ("RuntimeError" ++ ": " ++ "something broke") :=
  ⟨claim_C1_translator_table.1 .resourcesUnavailableError "no A100s" _ _ rfl,
   claim_C1_translator_table.2 .runtimeError "something broke" rfl⟩

/-- Claim C2: a raised failure already in `ToolError` form is re-raised by the
wrapper unchanged — no second prefix, no re-wrapping — and consequently
applying the translation twice equals applying it once. -/
theorem claim_C2_toolerror_passthrough :
    (∀ m, handle_skypilot_error (.toolError m) = .toolError m) ∧
    (∀ e, handle_skypilot_error (handle_skypilot_error e) =
        handle_skypilot_error e) := by
  refine ⟨fun _ => rfl, ?_⟩
  intro e
  cases e with
  | toolError m => rfl
  | skyExc cls m =>
    cases hf : toolErrorTable.find? (fun p => p.1 == cls) with
    | some p =>
      have hs : handle_skypilot_error (.skyExc cls m) = .toolError (p.2 m) := by
        show (match toolErrorTable.find? (fun q => q.1 == cls) with
          | some q => PyException.toolError (q.2 m)
          | none => .toolError (excTypeName cls ++ ": " ++ m)) = _
        rw [hf]
      rw [hs]
      rfl
    | none =>
      have hs : handle_skypilot_error (.skyExc cls m) =
          .toolError (excTypeName cls ++ ": " ++ m) := by
        show (match toolErrorTable.find? (fun q => q.1 == cls) with
          | some q => PyException.toolError (q.2 m)
          | none => .toolError (excTypeName cls ++ ": " ++ m)) = _
        rw [hf]
      rw [hs]
      rfl

/-- Claim C3 (counterexample): the claim "for every input value the serializer
returns a JSON-safe canonical value" fails on the code: the enum branch
returns `obj.value` raw without recursing, so an enum member whose underlying
value is a set serializes to that raw set, which is not canonical (a Python
enum such as `class Kind(enum.Enum): WEIRD = {1}` is legal). -/
theorem claim_C3_counterexample :
    _make_serializable (.penum "Kind.WEIRD" (.pset (.cons (.pint 1) .nil))) =
      .pset (.cons (.pint 1) .nil) ∧
    isCanonical
      (_make_serializable (.penum "Kind.WEIRD" (.pset (.cons (.pint 1) .nil)))) =
      false :=
  ⟨rfl, rfl⟩

/-- Claim C3 (amended): the serializer is total by construction (it is a Lean
function; no branch of the source can raise on the modelled values), and it
returns a JSON-safe canonical value for every input whose enum members carry
scalar underlying values — the only branch breaking canonicity is the enum
branch, which returns the underlying value raw; any value matched by no
earlier rule falls back to its textual representation; `safe_json_serialize`
composes the serializer with a total renderer and returns a string for every
input. -/
theorem claim_C3_total_canonical :
    (∀ v, enumsScalar v = true → isCanonical (_make_serializable v) = true) ∧
    (∀ r, _make_serializable (.pother r) = .pstr r) ∧
    (∀ v, safe_json_serialize v = jsonDumps (_make_serializable v)) :=
  ⟨fun v h => makeSer_canonical v h, fun _ => rfl, fun _ => rfl⟩

/-- Witness for C3: a dict holding a scalar-valued enum serializes to a
canonical value, and an unmatched object falls back to its `str()`. -/
theorem claim_C3_witness :
    enumsScalar (.pdict (.cons (.pstr "status") (.penum "Status.UP" (.pstr "UP")) .nil)) = true ∧
    isCanonical (_make_serializable
      (.pdict (.cons (.pstr "status") (.penum "Status.UP" (.pstr "UP")) .nil))) = true ∧
    _make_serializable (.pother "<sky.Task>") = .pstr "<sky.Task>" :=
  ⟨by decide, claim_C3_total_canonical.1 _ (by decide),
   claim_C3_total_canonical.2.1 "<sky.Task>"⟩

/-- Claim C10 (counterexample): the serializer is not idempotent: an enum
member whose underlying value is a tuple (e.g. `class E(enum.Enum): A = (1, 2)`)
serializes to the raw tuple, while a second serialization converts that tuple
to a list. -/
theorem claim_C10_counterexample :
    _make_serializable (_make_serializable
        (.penum "E.A" (.ptuple (.cons (.pint 1) (.cons (.pint 2) .nil))))) ≠
      _make_serializable
        (.penum "E.A" (.ptuple (.cons (.pint 1) (.cons (.pint 2) .nil)))) := by
  decide

/-- Claim C10 (amended): the serializer is idempotent on every value whose
enum members carry scalar underlying values, and every canonical value (null,
boolean, number, string, sequence of canonical values, string-keyed mapping of
canonical values) is a fixed point of the serializer; idempotence fails only
through the enum branch, which returns its underlying value unserialized. -/
theorem claim_C10_idempotent :
    (∀ v, enumsScalar v = true →
        _make_serializable (_make_serializable v) = _make_serializable v) ∧
    (∀ w, isCanonical w = true → _make_serializable w = w) :=
  ⟨fun v h => makeSer_fixed _ (makeSer_canonical v h),
   fun w h => makeSer_fixed w h⟩

/-- Witness for C10: idempotence at a concrete nested value and the
fixed-point property at a concrete canonical value. -/
theorem claim_C10_witness :
    (enumsScalar (.plist (.cons (.pint 1) (.cons (.pstr "a") .nil))) = true ∧
      _make_serializable (_make_serializable
          (.plist (.cons (.pint 1) (.cons (.pstr "a") .nil)))) =
        _make_serializable (.plist (.cons (.pint 1) (.cons (.pstr "a") .nil)))) ∧
    (isCanonical (.pdict (.cons (.pstr "k") (.pint 2) .nil)) = true ∧
      _make_serializable (.pdict (.cons (.pstr "k") (.pint 2) .nil)) =
        .pdict (.cons (.pstr "k") (.pint 2) .nil)) :=
  ⟨⟨by decide, claim_C10_idempotent.1 _ (by decide)⟩,
   ⟨by decide, claim_C10_idempotent.2 _ (by decide)⟩⟩

/-- Claim C8: a valid-UTF-8 byte sequence serializes to its decoded text
(`b"hello"` to `"hello"`); a non-UTF-8 byte sequence serializes to an ASCII
Base64 string whose Base64 decoding yields exactly the original bytes. -/
theorem claim_C8_bytes :
    (∀ bs s, utf8Decode bs = some s → _make_serializable (.pbytes bs) = .pstr s) ∧
    (∀ bs, (∀ b ∈ bs, b < 256) → utf8Decode bs = none →
        _make_serializable (.pbytes bs) = .pstr (b64EncodeString bs) ∧
        b64DecodeString (b64EncodeString bs) = some bs ∧
        (∀ c ∈ (b64EncodeString bs).data, c.toNat < 128)) ∧
    _make_serializable (.pbytes [0x68, 0x65, 0x6c, 0x6c, 0x6f]) = .pstr "hello" := by
  refine ⟨?_, ?_, by decide⟩
  · intro bs s h
    show (match utf8Decode bs with
      | some t => PyVal.pstr t
      | none => .pstr (b64EncodeString bs)) = .pstr s
    rw [h]
  · intro bs hb h
    refine ⟨?_, b64_roundtrip bs hb, fun c hc => b64EncodeChars_ascii bs c hc⟩
    show (match utf8Decode bs with
      | some t => PyVal.pstr t
      | none => .pstr (b64EncodeString bs)) = _
    rw [h]

/-- Witness for C8: the undecodable byte `0xff` round-trips through Base64
(`"/w=="`), and `b"hello"` decodes directly. -/
theorem claim_C8_witness :
    _make_serializable (.pbytes [0xff]) = .pstr (b64EncodeString [0xff]) ∧
    b64DecodeString (b64EncodeString [0xff]) = some [0xff] ∧
    b64EncodeString [0xff] = "/w==" ∧
    _make_serializable (.pbytes [0x68, 0x65, 0x6c, 0x6c, 0x6f]) = .pstr "hello" :=
  ⟨(claim_C8_bytes.2.1 [0xff] (by decide) (by decide)).1,
   (claim_C8_bytes.2.1 [0xff] (by decide) (by decide)).2.1,
   by decide,
   claim_C8_bytes.1 [0x68, 0x65, 0x6c, 0x6c, 0x6f] "hello" (by decide)⟩

/-- Claim C4: `resolve_request` returns the fetched result unchanged when the
fetch completes within the timeout; propagates any fetch-raised failure
unchanged; raises on timeout a `TimeoutError` whose message names the request
id, the timeout bound, and the status-polling instruction; and the default
timeout is 580 seconds, strictly below the outer 600-second MCP call
timeout. -/
theorem claim_C4_resolver :
    (∀ rid t d v, d ≤ t → resolve_request rid t d (.value v) = .ok v) ∧
    (∀ rid t d e, d ≤ t → resolve_request rid t d (.raises e) = .error e) ∧
    (∀ rid t d o, t < d →
        resolve_request rid t d o = .error (.skyExc .timeoutError
          ("Request " ++ rid ++ " did not complete within " ++ toString t ++
            "s. The request may still be running on the server. " ++
            "Use skypilot_api_status to check its status."))) ∧
    DEFAULT_RESOLVE_TIMEOUT = 580 ∧
    DEFAULT_RESOLVE_TIMEOUT < MCP_TOOL_TIMEOUT := by
  refine ⟨?_, ?_, ?_, rfl, by decide⟩
  · intro rid t d v h
    unfold resolve_request
    rw [if_pos h]
  · intro rid t d e h
    unfold resolve_request
    rw [if_pos h]
  · intro rid t d o h
    unfold resolve_request
    rw [if_neg (by omega)]

/-- Witness for C4: an immediately-resolving fetch of `[{"name":
"cluster-1"}]` is returned unchanged with `timeout=5`; a fetch needing 5
seconds against `timeout=1` raises the timeout error naming the request. -/
theorem claim_C4_witness :
    resolve_request "req-ok-001" 5 0
        (.value (.plist (.cons (.pdict (.cons (.pstr "name") (.pstr "cluster-1") .nil)) .nil))) =
      .ok (.plist (.cons (.pdict (.cons (.pstr "name") (.pstr "cluster-1") .nil)) .nil)) ∧
    resolve_request "req-slow-001" 1 5 (.value (.plist .nil)) =
      .error (.skyExc .timeoutError
        ("Request " ++ "req-slow-001" ++ " did not complete within " ++ toString 1 ++
          "s. The request may still be running on the server. " ++
          "Use skypilot_api_status to check its status.")) :=
  ⟨claim_C4_resolver.1 "req-ok-001" 5 0 _ (by decide),
   claim_C4_resolver.2.2.1 "req-slow-001" 1 5 _ (by decide)⟩

/-- Claim C9: both YAML entry points raise `ValueError` — without invoking
the collaborator parser — exactly on inputs that are empty or all whitespace;
an input with at least one non-whitespace character reaches the collaborator
parser unchanged. -/
theorem claim_C9_yaml_guard :
    (∀ s : String, (∀ c ∈ s.data, pyIsSpace c = true) →
        create_task_from_yaml s =
          .valueErrorRaised "task_yaml must be a non-empty YAML string." ∧
        load_dag_from_yaml s =
          .valueErrorRaised "task_yaml must be a non-empty YAML string.") ∧
    (∀ s : String, ¬(∀ c ∈ s.data, pyIsSpace c = true) →
        create_task_from_yaml s = .sdkParse s ∧
        load_dag_from_yaml s = .sdkParse s) := by
  constructor
  · intro s h
    have hstrip : pyStrip s = "" := (pyStrip_eq_empty_iff s).mpr h
    have hcond : (decide (s = "") || decide (pyStrip s = "")) = true := by
      rw [hstrip]
      simp
    constructor
    · unfold create_task_from_yaml
      rw [if_pos hcond]
    · unfold load_dag_from_yaml
      rw [if_pos hcond]
  · intro s h
    have h1 : ¬pyStrip s = "" := fun hc => h ((pyStrip_eq_empty_iff s).mp hc)
    have h2 : ¬s = "" := by
      intro hc
      subst hc
      exact h (fun c hc2 => absurd hc2 (List.not_mem_nil c))
    have hcond : ¬(decide (s = "") || decide (pyStrip s = "")) = true := by
      simp [h1, h2]
    constructor
    · unfold create_task_from_yaml
      rw [if_neg hcond]
    · unfold load_dag_from_yaml
      rw [if_neg hcond]

/-- Witness for C9: the whitespace-only string from the repository's own
test (`"   \n  "`) is rejected, as is a string of non-ASCII whitespace
(no-break space, file separator — both removed by `str.strip()`), and a
minimal task YAML reaches the parser. -/
theorem claim_C9_witness :
    create_task_from_yaml "   \n  " =
      .valueErrorRaised "task_yaml must be a non-empty YAML string." ∧
    create_task_from_yaml " \u001C " =
      .valueErrorRaised "task_yaml must be a non-empty YAML string." ∧
    load_dag_from_yaml "" =
      .valueErrorRaised "task_yaml must be a non-empty YAML string." ∧
    create_task_from_yaml "run: echo hi" = .sdkParse "run: echo hi" :=
  ⟨(claim_C9_yaml_guard.1 "   \n  " (by decide)).1,
   (claim_C9_yaml_guard.1 " \u001C " (by decide)).1,
   (claim_C9_yaml_guard.1 "" (by decide)).2,
   (claim_C9_yaml_guard.2 "run: echo hi" (by decide)).1⟩

/-- Claim C5 (counterexample): the claim says every one of the four
log-capture adapters translates `tail = 0` to the collaborator's `None`
sentinel, but `capture_cluster_logs` passes `tail` to `sky.tail_logs`
unchanged: with `tail = 0` the underlying call is invoked with the integer
`0`, not with `None`. -/
theorem claim_C5_counterexample :
    (capture_cluster_logs "c1" none 0 ⟨0, ""⟩).1.tail = some 0 ∧
    (some (0 : Int) = (none : Option Int) → False) :=
  ⟨rfl, fun h => Option.noConfusion h⟩

/-- Claim C5 (amended): the managed-job, serve and pool capture adapters
translate `tail = 0` to the collaborator's `None` sentinel and pass every
non-zero tail value through unchanged; `capture_cluster_logs` passes `tail`
through unchanged for every value — its collaborator call, `sky.tail_logs`,
natively treats `0` as "all lines", so `0` reaches it as the integer `0`. -/
theorem claim_C5_tail_sentinel :
    (∀ name job_id controller refresh task tail beh,
        (capture_managed_job_logs name job_id controller refresh task tail beh).1.tail =
          if tail = 0 then none else some tail) ∧
    (∀ sname target rid tail beh,
        (capture_serve_logs sname target rid tail beh).1.tail =
          if tail = 0 then none else some tail) ∧
    (∀ pname target wid tail beh,
        (capture_pool_logs pname target wid tail beh).1.tail =
          if tail = 0 then none else some tail) ∧
    (∀ cname job_id tail beh,
        (capture_cluster_logs cname job_id tail beh).1.tail = some tail) :=
  ⟨fun _ _ _ _ _ _ _ => rfl, fun _ _ _ _ _ => rfl,
   fun _ _ _ _ _ => rfl, fun _ _ _ _ => rfl⟩

/-- Claim C6 (counterexample): on a non-zero exit code with non-empty
captured output, `capture_cluster_logs` raises a message naming the cluster
and the exit code but NOT containing the captured output, contradicting the
claim's "includes any captured output for diagnostic value". -/
theorem claim_C6_counterexample :
    (capture_cluster_logs "c1" none 100 ⟨1, "some log text"⟩).2 =
      .error (.skyExc .runtimeError
        ("Failed to retrieve logs for cluster \x27c1\x27 (job_id=None): " ++
          "tail_logs returned exit code 1.")) ∧
    strContains
      ("Failed to retrieve logs for cluster \x27c1\x27 (job_id=None): " ++
        "tail_logs returned exit code 1.")
      "some log text" = false :=
  ⟨rfl, by decide⟩

/-- Claim C6 (amended): `capture_cluster_logs` and `capture_managed_job_logs`
raise, on a non-zero exit code, an error naming the capture target and the
exit code (without the captured output), and return the buffer on exit code
zero; the `skypilot_tail_autostop_logs` tool additionally appends the
captured output to its error message when non-empty; the serve and pool
adapters ignore the collaborator's return value and return the buffer
unconditionally. -/
theorem claim_C6_exit_codes :
    (∀ cname jid tail ec out, ec ≠ 0 →
        (capture_cluster_logs cname jid tail ⟨ec, out⟩).2 =
          .error (.skyExc .runtimeError
            ("Failed to retrieve logs for cluster \x27" ++ cname ++
              "\x27 (job_id=" ++ optIntStr jid ++ "): tail_logs returned exit code " ++
              toString ec ++ "."))) ∧
    (∀ cname jid tail out,
        (capture_cluster_logs cname jid tail ⟨0, out⟩).2 = .ok out) ∧
    (∀ name jid c r t tail ec out, ec ≠ 0 →
        (capture_managed_job_logs name jid c r t tail ⟨ec, out⟩).2 =
          .error (.skyExc .runtimeError
            ("Failed to retrieve managed job logs (" ++
              managedJobIdentifier name jid ++ "): tail_logs returned exit code " ++
              toString ec ++ "."))) ∧
    (∀ name jid c r t tail out,
        (capture_managed_job_logs name jid c r t tail ⟨0, out⟩).2 = .ok out) ∧
    (∀ sname target rid tail beh,
        (capture_serve_logs sname target rid tail beh).2 = .ok beh.written) ∧
    (∀ pname target wid tail beh,
        (capture_pool_logs pname target wid tail beh).2 = .ok beh.written) ∧
    (∀ cname tail ec out, ec ≠ 0 → out ≠ "" →
        (skypilot_tail_autostop_logs cname tail ⟨ec, out⟩).2 =
          .error (.skyExc .runtimeError
            ("Failed to retrieve autostop logs for cluster \x27" ++ cname ++
              "\x27: exit code " ++ toString ec ++ "." ++ ("\nOutput: " ++ out)))) ∧
    (∀ cname tail out,
        (skypilot_tail_autostop_logs cname tail ⟨0, out⟩).2 = .ok out) := by
  refine ⟨?_, ?_, ?_, ?_, fun _ _ _ _ _ => rfl, fun _ _ _ _ _ => rfl, ?_, ?_⟩
  · intro cname jid tail ec out h
    unfold capture_cluster_logs
    rw [if_pos h]
  · intro cname jid tail out
    unfold capture_cluster_logs
    rw [if_neg (by exact fun hc => hc rfl)]
  · intro name jid c r t tail ec out h
    unfold capture_managed_job_logs
    rw [if_pos h]
  · intro name jid c r t tail out
    rfl
  · intro cname tail ec out h hout
    unfold skypilot_tail_autostop_logs
    rw [if_pos h, if_neg hout]
  · intro cname tail out
    unfold skypilot_tail_autostop_logs
    rw [if_neg (by exact fun hc => hc rfl)]

/-- Witness for C6: concrete invocations exercising the non-zero-exit paths
(including the autostop tool's output-appending message) and a zero-exit
path. -/
theorem claim_C6_witness :
    (capture_managed_job_logs (some "my-job") none false false none 100 ⟨1, ""⟩).2 =
      .error (.skyExc .runtimeError
        ("Failed to retrieve managed job logs (" ++
          managedJobIdentifier (some "my-job") none ++
          "): tail_logs returned exit code " ++ toString (1 : Int) ++ ".")) ∧
    (skypilot_tail_autostop_logs "c2" 100 ⟨2, "partial output"⟩).2 =
      .error (.skyExc .runtimeError
        ("Failed to retrieve autostop logs for cluster \x27" ++ "c2" ++
          "\x27: exit code " ++ toString (2 : Int) ++ "." ++
          ("\nOutput: " ++ "partial output"))) ∧
    (capture_cluster_logs "c1" (some 7) 100 ⟨0, "log line\n"⟩).2 = .ok "log line\n" :=
  ⟨claim_C6_exit_codes.2.2.1 (some "my-job") none false false none 100 1 "" (by decide),
   claim_C6_exit_codes.2.2.2.2.2.2.1 "c2" 100 2 "partial output" (by decide) (by decide),
   claim_C6_exit_codes.2.1 "c1" (some 7) 100 "log line\n"⟩
